import Mathlib

/-!
Shallow embedding of the Voyager relayer core (`voyager/src/queue.rs`), the EVM
chain adapter's message submission path
(`voyager-message/src/chain_impls/evm.rs`), and the ucs01 token-transfer
on-chain module (`cosmwasm/ucs01-relay-api/src/protocol.rs`,
`cosmwasm/ucs01-relay/src/contract.rs`).

Machine integers are modelled as `Nat` (no arithmetic in the embedded code
overflows), opaque identifiers and byte strings as `String`, fallible or
panicking code as `Option`/`Except`, and the adapters' network I/O as explicit
function parameters ("environment").
-/

namespace Voyager

/-- IBC height `(revision_number, revision_height)`
(`unionlabs::ibc::core::client::height::Height`). -/
structure Height where
  revision_number : Nat
  revision_height : Nat
deriving DecidableEq, Repr

/-- `Height::increment`: bump the revision height, keep the revision number. -/
def Height.increment (h : Height) : Height :=
  { h with revision_height := h.revision_height + 1 }

/-- Height order within a single revision, per the spec's data model
(cross-revision comparison is an error, hence the equality requirement). -/
def Height.le (a b : Height) : Prop :=
  a.revision_number = b.revision_number ∧ a.revision_height ≤ b.revision_height

/-- `QueryHeight`: query at the latest height or at a specific one. -/
inductive QueryHeight
  | Latest
  | Specific (h : Height)
deriving DecidableEq, Repr

/-- `Identified<ChainId, T>`: a payload tagged with the chain id it pertains
to. Chain ids are modelled as strings (opaque per chain family). -/
structure Identified (α : Type) where
  chain_id : String
  data : α
deriving DecidableEq, Repr

/-- The value of a trusted client state as the reducer consumes it: the code
only reads `.chain_id()` (the chain the client tracks) and `.height()` (the
latest height of that chain the client trusts). -/
structure TrustedClientStateValue where
  chain_id : String
  height : Height
deriving DecidableEq, Repr

/-- `Data::TrustedClientState` payload (`msg::data::TrustedClientState`). -/
structure TrustedClientStateData where
  fetched_at : Height
  client_id : String
  trusted_client_state : TrustedClientStateValue
deriving DecidableEq, Repr

/-- A state proof as returned by `Chain::state_proof(path, at)`:
the proven state, the proof bytes, and the height the proof is valid at. -/
structure StateProofOf (α : Type) where
  state : α
  proof : String
  proof_height : Height
deriving DecidableEq, Repr

/-- `MerklePrefix { key_prefix: Vec<u8> }` (field renamed `key_prefix_bytes`
for Lean). -/
structure MerklePrefixData where
  key_prefix_bytes : String
deriving DecidableEq, Repr

/-- `connection::counterparty::Counterparty` (field `prefix` renamed
`prefix_` for Lean). -/
structure ConnectionCounterpartyData where
  client_id : String
  connection_id : String
  prefix_ : MerklePrefixData
deriving DecidableEq, Repr

/-- The connection end state used by the reducer: its own client id, the
supported versions, and the counterparty triple. -/
structure ConnectionEndValue where
  client_id : String
  versions : List String
  counterparty : ConnectionCounterpartyData
deriving DecidableEq, Repr

/-- `channel::counterparty::Counterparty`. -/
structure ChannelCounterpartyData where
  port_id : String
  channel_id : String
deriving DecidableEq, Repr

/-- The channel end state used by the reducer (`channel::channel::Channel`):
the handshake state and ordering are carried opaquely as strings. -/
structure ChannelValue where
  state : String
  ordering : String
  counterparty : ChannelCounterpartyData
  connection_hops : List String
  version : String
deriving DecidableEq, Repr

/-- `events::ConnectionOpenInit`. -/
structure ConnectionOpenInitEvt where
  connection_id : String
  client_id : String
  counterparty_client_id : String
deriving DecidableEq, Repr

/-- `events::ConnectionOpenTry`. -/
structure ConnectionOpenTryEvt where
  connection_id : String
  client_id : String
  counterparty_client_id : String
  counterparty_connection_id : String
deriving DecidableEq, Repr

/-- `events::ConnectionOpenAck`. -/
structure ConnectionOpenAckEvt where
  connection_id : String
  client_id : String
  counterparty_client_id : String
  counterparty_connection_id : String
deriving DecidableEq, Repr

/-- `events::ConnectionOpenConfirm` (log-only in the reducer). -/
structure ConnectionOpenConfirmEvt where
  connection_id : String
  client_id : String
deriving DecidableEq, Repr

/-- `events::ChannelOpenInit`. -/
structure ChannelOpenInitEvt where
  port_id : String
  channel_id : String
  counterparty_port_id : String
  connection_id : String
  version : String
deriving DecidableEq, Repr

/-- `events::ChannelOpenTry`. -/
structure ChannelOpenTryEvt where
  port_id : String
  channel_id : String
  counterparty_port_id : String
  counterparty_channel_id : String
  connection_id : String
  version : String
deriving DecidableEq, Repr

/-- `events::ChannelOpenAck`. -/
structure ChannelOpenAckEvt where
  port_id : String
  channel_id : String
  counterparty_port_id : String
  counterparty_channel_id : String
  connection_id : String
  version : String
deriving DecidableEq, Repr

/-- `events::ChannelOpenConfirm` (log-only in the reducer). -/
structure ChannelOpenConfirmEvt where
  port_id : String
  channel_id : String
deriving DecidableEq, Repr

/-- `events::SendPacket` as consumed by the reducer. -/
structure SendPacketEvt where
  packet_sequence : Nat
  packet_src_port : String
  packet_src_channel : String
  packet_dst_port : String
  packet_dst_channel : String
  packet_data_hex : String
  packet_timeout_height : Height
  packet_timeout_timestamp : Nat
  connection_id : String
deriving DecidableEq, Repr

/-- `events::RecvPacket` as consumed by the reducer. -/
structure RecvPacketEvt where
  packet_sequence : Nat
  packet_src_port : String
  packet_src_channel : String
  packet_dst_port : String
  packet_dst_channel : String
  packet_data_hex : String
  packet_timeout_height : Height
  packet_timeout_timestamp : Nat
  connection_id : String
deriving DecidableEq, Repr

/-- `IbcEvent`: the closed set of chain events the reducer dispatches on.
Log-only variants carry an opaque description. -/
inductive IbcEvent
  | CreateClient (info : String)
  | UpdateClient (info : String)
  | ClientMisbehaviour (info : String)
  | SubmitEvidence (info : String)
  | ConnectionOpenInit (e : ConnectionOpenInitEvt)
  | ConnectionOpenTry (e : ConnectionOpenTryEvt)
  | ConnectionOpenAck (e : ConnectionOpenAckEvt)
  | ConnectionOpenConfirm (e : ConnectionOpenConfirmEvt)
  | ChannelOpenInit (e : ChannelOpenInitEvt)
  | ChannelOpenTry (e : ChannelOpenTryEvt)
  | ChannelOpenAck (e : ChannelOpenAckEvt)
  | ChannelOpenConfirm (e : ChannelOpenConfirmEvt)
  | RecvPacket (e : RecvPacketEvt)
  | SendPacket (e : SendPacketEvt)
  | AcknowledgePacket (info : String)
  | TimeoutPacket (info : String)
  | WriteAcknowledgement (info : String)
deriving DecidableEq, Repr

/-- An IBC event together with the block context it was observed at
(`IbcEvent<_>` wrapper with `block_hash` and `height`). -/
structure IbcEventAt where
  block_hash : String
  height : Height
  event : IbcEvent
deriving DecidableEq, Repr

/-- `msg::event::Event`: either a chain IBC event or an operator command
(`Command::UpdateClient`). -/
inductive EventMsg
  | Ibc (e : IbcEventAt)
  | Command (client_id : String) (counterparty_client_id : String)
deriving DecidableEq, Repr

/-- `Data`: the payloads aggregations consume (`msg::data::Data`).
Light-client-specific payloads are carried opaquely. -/
inductive Data
  | TrustedClientState (d : TrustedClientStateData)
  | SelfClientState (raw : String)
  | SelfConsensusState (raw : String)
  | ClientStateProof (p : StateProofOf String)
  | ClientConsensusStateProof (p : StateProofOf String)
  | ConnectionProof (p : StateProofOf ConnectionEndValue)
  | ChannelEndProof (p : StateProofOf ChannelValue)
  | CommitmentProof (p : StateProofOf String)
  | AcknowledgementProof (p : StateProofOf String)
  | ConnectionEnd (connection : ConnectionEndValue)
  | ChannelEnd (channel : ChannelValue)
  | PacketAcknowledgement (fetched_by : String) (ack : String)
  | LightClientSpecific (raw : String)
deriving DecidableEq, Repr

/-- `proof::Path`: the IBC store paths a state proof can be requested for. -/
inductive ProofPath
  | ClientStatePath (client_id : String)
  | ClientConsensusStatePath (client_id : String) (height : Height)
  | ConnectionPath (connection_id : String)
  | ChannelEndPath (port_id : String) (channel_id : String)
  | CommitmentPath (port_id : String) (channel_id : String) (sequence : Nat)
  | AcknowledgementPath (port_id : String) (channel_id : String) (sequence : Nat)
deriving DecidableEq, Repr

/-- `msg::fetch::Fetch`: effectful queries against a chain adapter. -/
inductive Fetch
  | TrustedClientState (at_ : QueryHeight) (client_id : String)
  | StateProof (at_ : Height) (path : ProofPath)
  | SelfClientState (at_ : QueryHeight)
  | SelfConsensusState (at_ : QueryHeight)
  | ChannelEnd (at_ : Height) (port_id : String) (channel_id : String)
  | ConnectionEnd (at_ : Height) (connection_id : String)
  | PacketAcknowledgement (block_hash : String) (destination_port_id : String)
      (destination_channel_id : String) (sequence : Nat)
  | UpdateHeaders (client_id : String) (counterparty_client_id : String)
      (counterparty_chain_id : String) (update_from : Height) (update_to : Height)
  | LightClientSpecific (raw : String)
deriving DecidableEq, Repr

/-- `msg::wait::Wait`: conditions the reducer waits on. -/
inductive WaitMsg
  | Block (height : Height)
  | Timestamp (timestamp : Nat)
  | TrustedHeight (client_id : String) (height : Height)
      (counterparty_client_id : String) (counterparty_chain_id : String)
deriving DecidableEq, Repr

/-- `MsgConnectionOpenTry` as built by `AggregateConnectionOpenTry`. -/
structure MsgConnectionOpenTry where
  client_id : String
  client_state : String
  counterparty : ConnectionCounterpartyData
  delay_period : Nat
  counterparty_versions : List String
  proof_height : Height
  proof_init : String
  proof_client : String
  proof_consensus : String
  consensus_height : Height
deriving DecidableEq, Repr

/-- `MsgConnectionOpenAck` as built by `AggregateConnectionOpenAck`. -/
structure MsgConnectionOpenAck where
  connection_id : String
  counterparty_connection_id : String
  version : String
  client_state : String
  proof_height : Height
  proof_try : String
  proof_client : String
  proof_consensus : String
  consensus_height : Height
deriving DecidableEq, Repr

/-- `MsgConnectionOpenConfirm` as built by `AggregateConnectionOpenConfirm`. -/
structure MsgConnectionOpenConfirm where
  connection_id : String
  proof_height : Height
  proof_ack : String
deriving DecidableEq, Repr

/-- `MsgChannelOpenTry` as built by `AggregateChannelOpenTry`. -/
structure MsgChannelOpenTry where
  port_id : String
  channel : ChannelValue
  counterparty_version : String
  proof_init : String
  proof_height : Height
deriving DecidableEq, Repr

/-- `MsgChannelOpenAck` as built by `AggregateChannelOpenAck`. -/
structure MsgChannelOpenAck where
  port_id : String
  channel_id : String
  counterparty_channel_id : String
  counterparty_version : String
  proof_try : String
  proof_height : Height
deriving DecidableEq, Repr

/-- `MsgChannelOpenConfirm` as built by `AggregateChannelOpenConfirm`. -/
structure MsgChannelOpenConfirm where
  port_id : String
  channel_id : String
  proof_ack : String
  proof_height : Height
deriving DecidableEq, Repr

/-- `Packet` as rebuilt from a packet event. -/
structure PacketData where
  sequence : Nat
  source_port : String
  source_channel : String
  destination_port : String
  destination_channel : String
  data : String
  timeout_height : Height
  timeout_timestamp : Nat
deriving DecidableEq, Repr

/-- `MsgRecvPacket` as built by `AggregateRecvPacket`. -/
structure MsgRecvPacket where
  proof_height : Height
  packet : PacketData
  proof_commitment : String
deriving DecidableEq, Repr

/-- `MsgAcknowledgement` as built by `AggregateAckPacket`. -/
structure MsgAcknowledgement where
  proof_height : Height
  packet : PacketData
  acknowledgement : String
  proof_acked : String
deriving DecidableEq, Repr

/-- `msg::msg::Msg`: outbound IBC transactions. Variants the embedded
reducer never constructs carry an opaque payload. -/
inductive OutMsg
  | ConnectionOpenInit (raw : String)
  | ConnectionOpenTry (msg : MsgConnectionOpenTry)
  | ConnectionOpenAck (msg : MsgConnectionOpenAck)
  | ConnectionOpenConfirm (msg : MsgConnectionOpenConfirm)
  | ChannelOpenInit (raw : String)
  | ChannelOpenTry (msg : MsgChannelOpenTry)
  | ChannelOpenAck (msg : MsgChannelOpenAck)
  | ChannelOpenConfirm (msg : MsgChannelOpenConfirm)
  | RecvPacket (msg : MsgRecvPacket)
  | AckPacket (msg : MsgAcknowledgement)
  | CreateClient (config : String) (client_state : String) (consensus_state : String)
  | UpdateClient (client_id : String) (client_message : String)
deriving DecidableEq, Repr

/-- `ChannelHandshakeEvent`: which channel-handshake event triggered the
`ChannelHandshakeUpdateClient` aggregation. -/
inductive ChannelHandshakeEvt
  | Init (e : ChannelOpenInitEvt)
  | Try (e : ChannelOpenTryEvt)
  | Ack (e : ChannelOpenAckEvt)
deriving DecidableEq, Repr

/-- `PacketEvent`: which packet event triggered the `PacketUpdateClient`
aggregation. -/
inductive PacketEvt
  | Send (e : SendPacketEvt)
  | Recv (e : RecvPacketEvt)
deriving DecidableEq, Repr

/-- `FetchStateProof` arguments carried by
`AggregateFetchCounterpartyStateProof`. -/
structure FetchStateProofArgs where
  at_ : Height
  path : ProofPath
deriving DecidableEq, Repr

/-- `AggregateMsgAfterUpdate`: the per-event message to produce once the
counterparty client has been updated. -/
inductive MsgAfterUpdateKind
  | ConnectionOpenTry (event_height : Height) (event : ConnectionOpenInitEvt)
  | ConnectionOpenAck (event_height : Height) (event : ConnectionOpenTryEvt)
  | ConnectionOpenConfirm (event_height : Height) (event : ConnectionOpenAckEvt)
  | ChannelOpenTry (event_height : Height) (event : ChannelOpenInitEvt)
  | ChannelOpenAck (event_height : Height) (event : ChannelOpenTryEvt)
  | ChannelOpenConfirm (event_height : Height) (event : ChannelOpenAckEvt)
  | RecvPacket (event_height : Height) (event : SendPacketEvt)
  | AckPacket (event_height : Height) (event : RecvPacketEvt)
      (block_hash : String) (counterparty_client_id : String)
deriving DecidableEq, Repr

/-- `msg::aggregate::Aggregate`: the aggregation receivers (join points). -/
inductive AggregateKind
  | ConnectionOpenTry (event_height : Height) (event : ConnectionOpenInitEvt)
  | ConnectionOpenAck (event_height : Height) (event : ConnectionOpenTryEvt)
  | ConnectionOpenConfirm (event_height : Height) (event : ConnectionOpenAckEvt)
  | ChannelOpenTry (event_height : Height) (event : ChannelOpenInitEvt)
  | ChannelOpenAck (event_height : Height) (event : ChannelOpenTryEvt)
  | ChannelOpenConfirm (event_height : Height) (event : ChannelOpenAckEvt)
  | UpdateClientFromClientId (client_id : String) (counterparty_client_id : String)
  | UpdateClient (update_to : Height) (client_id : String) (counterparty_client_id : String)
  | UpdateClientWithCounterpartyChainId (update_to : Height) (client_id : String)
      (counterparty_client_id : String) (counterparty_chain_id : String)
  | CreateClient (config : String)
  | ConsensusStateProofAtLatestHeight (client_id : String) (at_ : Height)
  | MsgAfterUpdate (m : MsgAfterUpdateKind)
  | LightClientSpecific (raw : String)
  | ConnectionFetchFromChannelEnd (at_ : Height)
  | ChannelHandshakeUpdateClient (update_to : Height) (event_height : Height)
      (channel_handshake_event : ChannelHandshakeEvt)
  | PacketUpdateClient (update_to : Height) (event_height : Height)
      (block_hash : String) (packet_event : PacketEvt)
  | RecvPacket (event_height : Height) (event : SendPacketEvt)
  | AckPacket (event_height : Height) (event : RecvPacketEvt)
      (block_hash : String) (counterparty_client_id : String)
  | WaitForTrustedHeight (wait_for : Height) (client_id : String)
      (counterparty_client_id : String)
  | FetchCounterpartyStateproof (counterparty_client_id : String)
      (fetch : FetchStateProofArgs)
deriving DecidableEq, Repr

/-- `LcMsg` (`AnyLcMsg` flattened over the four light-client pairs: the pair
tag is irrelevant to the reduction logic, which addresses by chain id). -/
inductive LcMsg
  | Event (e : Identified EventMsg)
  | Data (d : Identified Data)
  | Fetch (f : Identified Fetch)
  | Msg (m : Identified OutMsg)
  | Wait (w : Identified WaitMsg)
  | Aggregate (a : Identified AggregateKind)
deriving DecidableEq, Repr

/-- `RelayerMsg`: the queue's message algebra. -/
inductive RelayerMsg
  | Lc (m : LcMsg)
  | DeferUntil (timestamp : Nat)
  | Timeout (timeout_timestamp : Nat) (msg : RelayerMsg)
  | Sequence (seq : List RelayerMsg)
  | Retry (remaining : Nat) (msg : RelayerMsg)
  | Aggregate (queue : List RelayerMsg) (data : List (Identified Data))
      (receiver : Identified AggregateKind)

/-- Whether a message is an outer `Sequence`. -/
def isSequence : RelayerMsg → Bool
  | .Sequence _ => true
  | _ => false

mutual

/-- The inner `flatten` of `flatten_seq`: recursively splice nested
`Sequence`s into a flat list. -/
def flatten : RelayerMsg → List RelayerMsg
  | .Sequence new_seq => flattenList new_seq
  | msg => [msg]

/-- `flatten` mapped over a list of messages, concatenating results. -/
def flattenList : List RelayerMsg → List RelayerMsg
  | [] => []
  | m :: ms => flatten m ++ flattenList ms

end

/-- `flatten_seq`: flatten nested `Sequence`s; a singleton result is
unwrapped. -/
def flatten_seq (msg : RelayerMsg) : RelayerMsg :=
  match flatten msg with
  | [x] => x
  | msgs => .Sequence msgs

end Voyager

namespace Voyager

/-- `DELAY_PERIOD` (crate-root constant; its value is not under `src/` and no
claim depends on it). -/
def DELAY_PERIOD : Nat := 0

/-- `mk_aggregate_update`: the three-step update pipeline seed — fetch our
trusted client state at the latest height and aggregate it into
`Aggregate::UpdateClient` with `update_to = event_height.increment()`. -/
def mk_aggregate_update (chain_id : String) (client_id : String)
    (counterparty_client_id : String) (event_height : Height) : RelayerMsg :=
  .Aggregate
    [.Lc (.Fetch ⟨chain_id, .TrustedClientState .Latest client_id⟩)]
    []
    ⟨chain_id, .UpdateClient event_height.increment client_id counterparty_client_id⟩

/-- `handle_event`: turn an observed event into its successor workflow.
`none` models the `unimplemented!()` panics (`ClientMisbehaviour`,
`SubmitEvidence`). -/
def handle_event (chain_id : String) : EventMsg → Option (List RelayerMsg)
  | .Ibc ev =>
    match ev.event with
    | .CreateClient _ => some []
    | .UpdateClient _ => some []
    | .ClientMisbehaviour _ => none
    | .SubmitEvidence _ => none
    | .ConnectionOpenInit init => some [.Sequence [
        .Lc (.Wait ⟨chain_id, .Block ev.height.increment⟩),
        .Aggregate
          [mk_aggregate_update chain_id init.client_id init.counterparty_client_id ev.height]
          []
          ⟨chain_id, .MsgAfterUpdate (.ConnectionOpenTry ev.height init)⟩]]
    | .ConnectionOpenTry try_ => some [.Sequence [
        .Lc (.Wait ⟨chain_id, .Block ev.height.increment⟩),
        .Aggregate
          [mk_aggregate_update chain_id try_.client_id try_.counterparty_client_id ev.height]
          []
          ⟨chain_id, .MsgAfterUpdate (.ConnectionOpenAck ev.height try_)⟩]]
    | .ConnectionOpenAck ack => some [.Sequence [
        .Lc (.Wait ⟨chain_id, .Block ev.height.increment⟩),
        .Aggregate
          [mk_aggregate_update chain_id ack.client_id ack.counterparty_client_id ev.height]
          []
          ⟨chain_id, .MsgAfterUpdate (.ConnectionOpenConfirm ev.height ack)⟩]]
    | .ConnectionOpenConfirm _ => some []
    | .ChannelOpenInit init => some [.Sequence [
        .Lc (.Wait ⟨chain_id, .Block ev.height.increment⟩),
        .Aggregate
          [.Aggregate
            [.Lc (.Fetch ⟨chain_id, .ChannelEnd ev.height.increment init.port_id init.channel_id⟩)]
            []
            ⟨chain_id, .ConnectionFetchFromChannelEnd ev.height.increment⟩]
          []
          ⟨chain_id, .ChannelHandshakeUpdateClient ev.height.increment ev.height (.Init init)⟩]]
    | .ChannelOpenTry try_ => some [.Sequence [
        .Lc (.Wait ⟨chain_id, .Block ev.height.increment⟩),
        .Aggregate
          [.Aggregate
            [.Lc (.Fetch ⟨chain_id, .ChannelEnd ev.height.increment try_.port_id try_.channel_id⟩)]
            []
            ⟨chain_id, .ConnectionFetchFromChannelEnd ev.height.increment⟩]
          []
          ⟨chain_id, .ChannelHandshakeUpdateClient ev.height.increment ev.height (.Try try_)⟩]]
    | .ChannelOpenAck ack => some [.Sequence [
        .Lc (.Wait ⟨chain_id, .Block ev.height.increment⟩),
        .Aggregate
          [.Aggregate
            [.Lc (.Fetch ⟨chain_id, .ChannelEnd ev.height.increment ack.port_id ack.channel_id⟩)]
            []
            ⟨chain_id, .ConnectionFetchFromChannelEnd ev.height.increment⟩]
          []
          ⟨chain_id, .ChannelHandshakeUpdateClient ev.height.increment ev.height (.Ack ack)⟩]]
    | .ChannelOpenConfirm _ => some []
    | .RecvPacket _ => some []
    | .SendPacket packet => some [.Sequence [
        .Lc (.Wait ⟨chain_id, .Block ev.height.increment⟩),
        .Aggregate
          [.Lc (.Fetch ⟨chain_id, .ConnectionEnd ev.height packet.connection_id⟩)]
          []
          ⟨chain_id, .PacketUpdateClient ev.height.increment ev.height ev.block_hash (.Send packet)⟩]]
    | .AcknowledgePacket _ => some []
    | .TimeoutPacket _ => some []
    | .WriteAcknowledgement _ => some []
  | .Command client_id counterparty_client_id => some [
      .Aggregate
        [.Lc (.Fetch ⟨chain_id, .TrustedClientState .Latest client_id⟩)]
        []
        ⟨chain_id, .UpdateClientFromClientId client_id counterparty_client_id⟩]

/-- The chain responses `handle_wait` consults, plus the wall clock: the
adapter's latest height (two query styles), latest timestamp, and
`query_client_state`. -/
structure WaitChainCtx where
  chain_id : String
  latest_height : Height
  latest_height_as_destination : Height
  latest_timestamp : Nat
  query_client_state : String → Height → TrustedClientStateValue
  now : Nat

/-- `handle_wait`: resolve or re-emit a wait condition. `none` models the
`assert_eq!` on revision numbers in the `Block` arm. -/
def handle_wait (l : WaitChainCtx) : WaitMsg → Option (List RelayerMsg)
  | .Block height =>
    if l.latest_height.revision_number ≠ height.revision_number then none
    else if height.revision_height ≤ l.latest_height.revision_height then some []
    else some [.Sequence [
      .DeferUntil (l.now + 1),
      .Lc (.Wait ⟨l.chain_id, .Block height⟩)]]
  | .Timestamp timestamp =>
    if timestamp ≤ l.latest_timestamp then some []
    else some [.Sequence [
      .DeferUntil (l.now + 1),
      .Lc (.Wait ⟨l.chain_id, .Timestamp timestamp⟩)]]
  | .TrustedHeight client_id height counterparty_client_id counterparty_chain_id =>
    let latest_height := l.latest_height_as_destination
    let trusted_client_state := l.query_client_state client_id latest_height
    if height.revision_height ≤ trusted_client_state.height.revision_height then
      some [.Lc (.Fetch ⟨counterparty_chain_id,
        .TrustedClientState (.Specific trusted_client_state.height) counterparty_client_id⟩)]
    else
      some [.Sequence [
        .DeferUntil (l.now + 1),
        .Lc (.Wait ⟨l.chain_id,
          .TrustedHeight client_id height counterparty_client_id counterparty_chain_id⟩)]]

/-- `AggregateChannelHandshakeUpdateClient::aggregate`. -/
def aggregateChannelHandshakeUpdateClient (this_chain_id : String)
    (update_to : Height) (event_height : Height) (channel_handshake_event : ChannelHandshakeEvt)
    (connection : Identified ConnectionEndValue) : Option RelayerMsg :=
  if this_chain_id ≠ connection.chain_id then none else
  let event_msg : MsgAfterUpdateKind :=
    match channel_handshake_event with
    | .Init init => .ChannelOpenTry event_height init
    | .Try try_ => .ChannelOpenAck event_height try_
    | .Ack ack => .ChannelOpenConfirm event_height ack
  some (.Aggregate
    [mk_aggregate_update this_chain_id connection.data.client_id
      connection.data.counterparty.client_id update_to]
    []
    ⟨this_chain_id, .MsgAfterUpdate event_msg⟩)

/-- `AggregatePacketUpdateClient::aggregate`. -/
def aggregatePacketUpdateClient (this_chain_id : String)
    (update_to : Height) (event_height : Height) (block_hash : String)
    (packet_event : PacketEvt)
    (connection : Identified ConnectionEndValue) : Option RelayerMsg :=
  if this_chain_id ≠ connection.chain_id then none else
  let event : AggregateKind :=
    match packet_event with
    | .Send send => .MsgAfterUpdate (.RecvPacket event_height send)
    | .Recv recv => .MsgAfterUpdate (.AckPacket event_height recv block_hash
        connection.data.counterparty.client_id)
  some (.Aggregate
    [.Aggregate
      [.Lc (.Fetch ⟨this_chain_id, .TrustedClientState .Latest connection.data.client_id⟩)]
      []
      ⟨this_chain_id, .WaitForTrustedHeight update_to connection.data.client_id
        connection.data.counterparty.client_id⟩]
    []
    ⟨this_chain_id, event⟩)

/-- `AggregateConnectionFetchFromChannelEnd::aggregate`
(`connection_hops[0]` panics on an empty hop list, hence `none`). -/
def aggregateConnectionFetchFromChannelEnd (this_chain_id : String) (at_ : Height)
    (channel : Identified ChannelValue) : Option RelayerMsg :=
  if this_chain_id ≠ channel.chain_id then none else
  match channel.data.connection_hops with
  | [] => none
  | hop0 :: _ => some (.Lc (.Fetch ⟨this_chain_id, .ConnectionEnd at_ hop0⟩))

/-- `AggregateUpdateClientFromClientId::aggregate`. -/
def aggregateUpdateClientFromClientId (this_chain_id : String)
    (client_id : String) (counterparty_client_id : String)
    (tcs : Identified TrustedClientStateData) : Option RelayerMsg :=
  if this_chain_id ≠ tcs.chain_id then none else
  let counterparty_chain_id := tcs.data.trusted_client_state.chain_id
  some (.Aggregate
    [.Lc (.Fetch ⟨counterparty_chain_id,
      .TrustedClientState (.Specific tcs.data.trusted_client_state.height) counterparty_client_id⟩)]
    []
    ⟨this_chain_id, .UpdateClientWithCounterpartyChainId tcs.data.fetched_at
      client_id counterparty_client_id counterparty_chain_id⟩)

/-- `AggregateUpdateClient::aggregate`. -/
def aggregateUpdateClient (this_chain_id : String)
    (update_to : Height) (client_id : String) (counterparty_client_id : String)
    (tcs : Identified TrustedClientStateData) : Option RelayerMsg :=
  if this_chain_id ≠ tcs.chain_id then none else
  if client_id ≠ tcs.data.client_id then none else
  let counterparty_chain_id := tcs.data.trusted_client_state.chain_id
  some (.Aggregate
    [.Lc (.Fetch ⟨counterparty_chain_id,
      .TrustedClientState .Latest counterparty_client_id⟩)]
    []
    ⟨this_chain_id, .UpdateClientWithCounterpartyChainId update_to
      client_id counterparty_client_id counterparty_chain_id⟩)

/-- `AggregateUpdateClientWithCounterpartyChainId::aggregate`. -/
def aggregateUpdateClientWithCounterpartyChainId (this_chain_id : String)
    (update_to : Height) (client_id : String) (counterparty_client_id : String)
    (counterparty_chain_id : String)
    (tcs : Identified TrustedClientStateData) : Option RelayerMsg :=
  if this_chain_id ≠ tcs.data.trusted_client_state.chain_id then none else
  if tcs.data.client_id ≠ counterparty_client_id then none else
  if tcs.chain_id ≠ counterparty_chain_id then none else
  some (.Lc (.Fetch ⟨this_chain_id, .UpdateHeaders client_id counterparty_client_id
    tcs.chain_id tcs.data.trusted_client_state.height update_to⟩))

/-- `AggregateWaitForTrustedHeight::aggregate` (no asserts; always
succeeds). -/
def aggregateWaitForTrustedHeight (this_chain_id : String)
    (wait_for : Height) (client_id : String) (counterparty_client_id : String)
    (tcs : Identified TrustedClientStateData) : RelayerMsg :=
  let counterparty_chain_id := tcs.data.trusted_client_state.chain_id
  .Lc (.Wait ⟨counterparty_chain_id,
    .TrustedHeight counterparty_client_id wait_for client_id this_chain_id⟩)

/-- `ConsensusStateProofAtLatestHeight::aggregate` (unused in the
choreography, kept for totality of the dispatch). -/
def aggregateConsensusStateProofAtLatestHeight (this_chain_id : String)
    (client_id : String) (at_ : Height)
    (tcs : Identified TrustedClientStateData) : Option RelayerMsg :=
  if this_chain_id ≠ tcs.chain_id then none else
  if client_id ≠ tcs.data.client_id then none else
  some (.Lc (.Fetch ⟨this_chain_id, .StateProof at_
    (.ClientConsensusStatePath client_id tcs.data.trusted_client_state.height)⟩))

/-- `AggregateMsgAfterUpdate::aggregate`: once the trusted client state is
available, fan out the proof fetches at `fetched_at` and chain into the
per-event final aggregation. -/
def aggregateMsgAfterUpdate (this_chain_id : String)
    (tcs : Identified TrustedClientStateData)
    (msg_to_aggregate : MsgAfterUpdateKind) : Option RelayerMsg :=
  if this_chain_id ≠ tcs.chain_id then none else
  let fetched_at := tcs.data.fetched_at
  let trusted_client_state_height := tcs.data.trusted_client_state.height
  let tcs_data : Identified Data := ⟨this_chain_id, .TrustedClientState tcs.data⟩
  match msg_to_aggregate with
  | .ConnectionOpenTry event_height event =>
    if fetched_at.revision_number ≠ event_height.revision_number then none else
    if ¬ event_height.revision_height ≤ fetched_at.revision_height then none else
    some (.Aggregate
      [.Lc (.Fetch ⟨this_chain_id, .StateProof fetched_at (.ClientStatePath event.client_id)⟩),
       .Lc (.Fetch ⟨this_chain_id, .StateProof fetched_at
         (.ClientConsensusStatePath event.client_id trusted_client_state_height)⟩),
       .Lc (.Fetch ⟨this_chain_id, .StateProof fetched_at (.ConnectionPath event.connection_id)⟩)]
      [tcs_data]
      ⟨this_chain_id, .ConnectionOpenTry event_height event⟩)
  | .ConnectionOpenAck event_height event =>
    if fetched_at.revision_number ≠ event_height.revision_number then none else
    if ¬ event_height.revision_height ≤ fetched_at.revision_height then none else
    some (.Aggregate
      [.Lc (.Fetch ⟨this_chain_id, .StateProof fetched_at (.ClientStatePath event.client_id)⟩),
       .Lc (.Fetch ⟨this_chain_id, .StateProof fetched_at
         (.ClientConsensusStatePath event.client_id trusted_client_state_height)⟩),
       .Lc (.Fetch ⟨this_chain_id, .StateProof fetched_at (.ConnectionPath event.connection_id)⟩)]
      [tcs_data]
      ⟨this_chain_id, .ConnectionOpenAck event_height event⟩)
  | .ConnectionOpenConfirm event_height event =>
    if fetched_at.revision_number ≠ event_height.revision_number then none else
    if ¬ event_height.revision_height ≤ fetched_at.revision_height then none else
    some (.Aggregate
      [.Lc (.Fetch ⟨this_chain_id, .StateProof fetched_at (.ConnectionPath event.connection_id)⟩)]
      [tcs_data]
      ⟨this_chain_id, .ConnectionOpenConfirm event_height event⟩)
  | .ChannelOpenTry event_height event =>
    if fetched_at.revision_number ≠ event_height.revision_number then none else
    if ¬ event_height.revision_height ≤ fetched_at.revision_height then none else
    some (.Aggregate
      [.Aggregate
        [.Lc (.Fetch ⟨this_chain_id, .ChannelEnd fetched_at event.port_id event.channel_id⟩)]
        []
        ⟨this_chain_id, .ConnectionFetchFromChannelEnd fetched_at⟩,
       .Lc (.Fetch ⟨this_chain_id, .StateProof fetched_at
         (.ChannelEndPath event.port_id event.channel_id)⟩)]
      [tcs_data]
      ⟨this_chain_id, .ChannelOpenTry event_height event⟩)
  | .ChannelOpenAck event_height event =>
    if fetched_at.revision_number ≠ event_height.revision_number then none else
    if ¬ event_height.revision_height ≤ fetched_at.revision_height then none else
    some (.Aggregate
      [.Lc (.Fetch ⟨this_chain_id, .StateProof fetched_at
        (.ChannelEndPath event.port_id event.channel_id)⟩)]
      [tcs_data]
      ⟨this_chain_id, .ChannelOpenAck event_height event⟩)
  | .ChannelOpenConfirm event_height event =>
    if fetched_at.revision_number ≠ event_height.revision_number then none else
    if ¬ event_height.revision_height ≤ fetched_at.revision_height then none else
    some (.Aggregate
      [.Lc (.Fetch ⟨this_chain_id, .StateProof fetched_at
        (.ChannelEndPath event.port_id event.channel_id)⟩)]
      [tcs_data]
      ⟨this_chain_id, .ChannelOpenConfirm event_height event⟩)
  | .RecvPacket event_height event =>
    some (.Aggregate
      [.Lc (.Fetch ⟨this_chain_id, .StateProof fetched_at
        (.CommitmentPath event.packet_src_port event.packet_src_channel event.packet_sequence)⟩)]
      [tcs_data]
      ⟨this_chain_id, .RecvPacket event_height event⟩)
  | .AckPacket event_height event block_hash counterparty_client_id =>
    some (.Aggregate
      [.Lc (.Fetch ⟨this_chain_id, .PacketAcknowledgement block_hash
        event.packet_dst_port event.packet_dst_channel event.packet_sequence⟩),
       .Lc (.Fetch ⟨this_chain_id, .StateProof fetched_at
        (.AcknowledgementPath event.packet_dst_port event.packet_dst_channel event.packet_sequence)⟩)]
      [tcs_data]
      ⟨this_chain_id, .AckPacket event_height event block_hash counterparty_client_id⟩)

/-- `AggregateConnectionOpenTry::aggregate`: build the single
`MsgConnectionOpenTry` addressed to the counterparty chain. -/
def aggregateConnectionOpenTry (this_chain_id : String)
    (event_height : Height) (event : ConnectionOpenInitEvt)
    (tcs : Identified TrustedClientStateData)
    (client_state_proof : Identified (StateProofOf String))
    (consensus_state_proof : Identified (StateProofOf String))
    (connection_proof : Identified (StateProofOf ConnectionEndValue)) : Option RelayerMsg :=
  if this_chain_id ≠ tcs.chain_id then none else
  if ¬ event_height.revision_height ≤ consensus_state_proof.data.proof_height.revision_height
    then none else
  if ¬ event_height.revision_height ≤ client_state_proof.data.proof_height.revision_height
    then none else
  if client_state_proof.chain_id ≠ this_chain_id then none else
  if consensus_state_proof.chain_id ≠ this_chain_id then none else
  if connection_proof.chain_id ≠ this_chain_id then none else
  let counterparty_chain_id := tcs.data.trusted_client_state.chain_id
  let consensus_height := tcs.data.trusted_client_state.height
  some (.Lc (.Msg ⟨counterparty_chain_id, .ConnectionOpenTry {
    client_id := event.counterparty_client_id
    client_state := client_state_proof.data.state
    counterparty := {
      client_id := event.client_id
      connection_id := event.connection_id
      prefix_ := { key_prefix_bytes := "ibc" } }
    delay_period := DELAY_PERIOD
    counterparty_versions := connection_proof.data.state.versions
    proof_height := connection_proof.data.proof_height
    proof_init := connection_proof.data.proof
    proof_client := client_state_proof.data.proof
    proof_consensus := consensus_state_proof.data.proof
    consensus_height := consensus_height }⟩))

/-- `AggregateConnectionOpenAck::aggregate` (`versions[0]` panics on an
empty version list, hence `none`). -/
def aggregateConnectionOpenAck (this_chain_id : String)
    (event_height : Height) (event : ConnectionOpenTryEvt)
    (tcs : Identified TrustedClientStateData)
    (client_state_proof : Identified (StateProofOf String))
    (consensus_state_proof : Identified (StateProofOf String))
    (connection_proof : Identified (StateProofOf ConnectionEndValue)) : Option RelayerMsg :=
  if this_chain_id ≠ tcs.chain_id then none else
  if ¬ event_height.revision_height ≤ consensus_state_proof.data.proof_height.revision_height
    then none else
  if ¬ event_height.revision_height ≤ client_state_proof.data.proof_height.revision_height
    then none else
  if client_state_proof.chain_id ≠ this_chain_id then none else
  if consensus_state_proof.chain_id ≠ this_chain_id then none else
  if connection_proof.chain_id ≠ this_chain_id then none else
  match connection_proof.data.state.versions with
  | [] => none
  | version0 :: _ =>
    let counterparty_chain_id := tcs.data.trusted_client_state.chain_id
    let consensus_height := tcs.data.trusted_client_state.height
    some (.Lc (.Msg ⟨counterparty_chain_id, .ConnectionOpenAck {
      connection_id := event.counterparty_connection_id
      counterparty_connection_id := event.connection_id
      version := version0
      client_state := client_state_proof.data.state
      proof_height := connection_proof.data.proof_height
      proof_try := connection_proof.data.proof
      proof_client := client_state_proof.data.proof
      proof_consensus := consensus_state_proof.data.proof
      consensus_height := consensus_height }⟩))

/-- `AggregateConnectionOpenConfirm::aggregate`. -/
def aggregateConnectionOpenConfirm (this_chain_id : String)
    (event : ConnectionOpenAckEvt)
    (tcs : Identified TrustedClientStateData)
    (connection_proof : Identified (StateProofOf ConnectionEndValue)) : Option RelayerMsg :=
  if this_chain_id ≠ tcs.chain_id then none else
  if connection_proof.chain_id ≠ this_chain_id then none else
  let counterparty_chain_id := tcs.data.trusted_client_state.chain_id
  some (.Lc (.Msg ⟨counterparty_chain_id, .ConnectionOpenConfirm {
    connection_id := event.counterparty_connection_id
    proof_height := connection_proof.data.proof_height
    proof_ack := connection_proof.data.proof }⟩))

/-- `AggregateChannelOpenTry::aggregate`. -/
def aggregateChannelOpenTry (this_chain_id : String)
    (event : ChannelOpenInitEvt)
    (tcs : Identified TrustedClientStateData)
    (channel_proof : Identified (StateProofOf ChannelValue))
    (connection : Identified ConnectionEndValue) : Option RelayerMsg :=
  if this_chain_id ≠ tcs.chain_id then none else
  if channel_proof.chain_id ≠ this_chain_id then none else
  let counterparty_chain_id := tcs.data.trusted_client_state.chain_id
  some (.Lc (.Msg ⟨counterparty_chain_id, .ChannelOpenTry {
    port_id := channel_proof.data.state.counterparty.port_id
    channel := {
      state := "TRYOPEN"
      ordering := channel_proof.data.state.ordering
      counterparty := { port_id := event.port_id, channel_id := event.channel_id }
      connection_hops := [connection.data.counterparty.connection_id]
      version := event.version }
    counterparty_version := event.version
    proof_init := channel_proof.data.proof
    proof_height := channel_proof.data.proof_height }⟩))

/-- `AggregateChannelOpenAck::aggregate`. -/
def aggregateChannelOpenAck (this_chain_id : String)
    (event : ChannelOpenTryEvt)
    (tcs : Identified TrustedClientStateData)
    (channel_proof : Identified (StateProofOf ChannelValue)) : Option RelayerMsg :=
  if this_chain_id ≠ tcs.chain_id then none else
  if channel_proof.chain_id ≠ this_chain_id then none else
  let counterparty_chain_id := tcs.data.trusted_client_state.chain_id
  some (.Lc (.Msg ⟨counterparty_chain_id, .ChannelOpenAck {
    port_id := channel_proof.data.state.counterparty.port_id
    channel_id := event.counterparty_channel_id
    counterparty_channel_id := event.channel_id
    counterparty_version := event.version
    proof_try := channel_proof.data.proof
    proof_height := channel_proof.data.proof_height }⟩))

/-- `AggregateChannelOpenConfirm::aggregate`. -/
def aggregateChannelOpenConfirm (this_chain_id : String)
    (event : ChannelOpenAckEvt)
    (tcs : Identified TrustedClientStateData)
    (channel_proof : Identified (StateProofOf ChannelValue)) : Option RelayerMsg :=
  if this_chain_id ≠ tcs.chain_id then none else
  if channel_proof.chain_id ≠ this_chain_id then none else
  let counterparty_chain_id := tcs.data.trusted_client_state.chain_id
  some (.Lc (.Msg ⟨counterparty_chain_id, .ChannelOpenConfirm {
    port_id := channel_proof.data.state.counterparty.port_id
    channel_id := event.counterparty_channel_id
    proof_ack := channel_proof.data.proof
    proof_height := channel_proof.data.proof_height }⟩))

/-- `AggregateRecvPacket::aggregate`: the final `MsgRecvPacket`, its
`proof_height` copied from the aggregated commitment proof. -/
def aggregateRecvPacket (this_chain_id : String)
    (event : SendPacketEvt)
    (tcs : Identified TrustedClientStateData)
    (commitment_proof : Identified (StateProofOf String)) : Option RelayerMsg :=
  if this_chain_id ≠ tcs.chain_id then none else
  if commitment_proof.chain_id ≠ this_chain_id then none else
  let counterparty_chain_id := tcs.data.trusted_client_state.chain_id
  some (.Lc (.Msg ⟨counterparty_chain_id, .RecvPacket {
    proof_height := commitment_proof.data.proof_height
    packet := {
      sequence := event.packet_sequence
      source_port := event.packet_src_port
      source_channel := event.packet_src_channel
      destination_port := event.packet_dst_port
      destination_channel := event.packet_dst_channel
      data := event.packet_data_hex
      timeout_height := event.packet_timeout_height
      timeout_timestamp := event.packet_timeout_timestamp }
    proof_commitment := commitment_proof.data.proof }⟩))

/-- `AggregateAckPacket::aggregate`. -/
def aggregateAckPacket (this_chain_id : String)
    (event : RecvPacketEvt)
    (tcs : Identified TrustedClientStateData)
    (packet_acknowledgement : Identified (String × String))
    (acknowledgement_proof : Identified (StateProofOf String)) : Option RelayerMsg :=
  if this_chain_id ≠ tcs.chain_id then none else
  if acknowledgement_proof.chain_id ≠ this_chain_id then none else
  let counterparty_chain_id := tcs.data.trusted_client_state.chain_id
  some (.Lc (.Msg ⟨counterparty_chain_id, .AckPacket {
    proof_height := acknowledgement_proof.data.proof_height
    packet := {
      sequence := event.packet_sequence
      source_port := event.packet_src_port
      source_channel := event.packet_src_channel
      destination_port := event.packet_dst_port
      destination_channel := event.packet_dst_channel
      data := event.packet_data_hex
      timeout_height := event.packet_timeout_height
      timeout_timestamp := event.packet_timeout_timestamp }
    acknowledgement := packet_acknowledgement.data.2
    proof_acked := acknowledgement_proof.data.proof }⟩))

/-- `AggregateFetchCounterpartyStateProof::aggregate`. -/
def aggregateFetchCounterpartyStateProof (this_chain_id : String)
    (fetch : FetchStateProofArgs)
    (tcs : Identified TrustedClientStateData) : Option RelayerMsg :=
  if this_chain_id ≠ tcs.chain_id then none else
  let counterparty_chain_id := tcs.data.trusted_client_state.chain_id
  some (.Lc (.Fetch ⟨counterparty_chain_id, .StateProof fetch.at_ fetch.path⟩))

/-- `AggregateCreateClient::aggregate`. -/
def aggregateCreateClient (this_chain_id : String) (config : String)
    (self_client_state : Identified String)
    (self_consensus_state : Identified String) : Option RelayerMsg :=
  if self_client_state.chain_id ≠ self_consensus_state.chain_id then none else
  some (.Lc (.Msg ⟨this_chain_id,
    .CreateClient config self_client_state.data self_consensus_state.data⟩))

end Voyager

namespace Voyager

/-- Modelled from the spec: `aggregate_data::do_aggregate` (file
`queue/aggregate_data.rs`, not under `src/`) converts the aggregate's
collected `VecDeque<AggregateData>` into the receiver's typed tuple.
Per §4.4/§5 the aggregator matches by payload type, not position, and
excess or missing items are a fatal bug. `extractOne` removes the first
item matching the given projection, returning it and the remainder. -/
def extractOne (f : Identified Data → Option α) :
    List (Identified Data) → Option (α × List (Identified Data))
  | [] => none
  | d :: rest =>
    match f d with
    | some a => some (a, rest)
    | none =>
      match extractOne f rest with
      | some (a, r) => some (a, d :: r)
      | none => none

/-- Projection for `identified!(TrustedClientState)`. -/
def pickTrustedClientState : Identified Data → Option (Identified TrustedClientStateData)
  | ⟨c, .TrustedClientState d⟩ => some ⟨c, d⟩
  | _ => none

/-- Projection for `identified!(ClientStateProof)`. -/
def pickClientStateProof : Identified Data → Option (Identified (StateProofOf String))
  | ⟨c, .ClientStateProof p⟩ => some ⟨c, p⟩
  | _ => none

/-- Projection for `identified!(ClientConsensusStateProof)`. -/
def pickClientConsensusStateProof : Identified Data → Option (Identified (StateProofOf String))
  | ⟨c, .ClientConsensusStateProof p⟩ => some ⟨c, p⟩
  | _ => none

/-- Projection for `identified!(ConnectionProof)`. -/
def pickConnectionProof : Identified Data → Option (Identified (StateProofOf ConnectionEndValue))
  | ⟨c, .ConnectionProof p⟩ => some ⟨c, p⟩
  | _ => none

/-- Projection for `identified!(ChannelEndProof)`. -/
def pickChannelEndProof : Identified Data → Option (Identified (StateProofOf ChannelValue))
  | ⟨c, .ChannelEndProof p⟩ => some ⟨c, p⟩
  | _ => none

/-- Projection for `identified!(CommitmentProof)`. -/
def pickCommitmentProof : Identified Data → Option (Identified (StateProofOf String))
  | ⟨c, .CommitmentProof p⟩ => some ⟨c, p⟩
  | _ => none

/-- Projection for `identified!(AcknowledgementProof)`. -/
def pickAcknowledgementProof : Identified Data → Option (Identified (StateProofOf String))
  | ⟨c, .AcknowledgementProof p⟩ => some ⟨c, p⟩
  | _ => none

/-- Projection for `identified!(ConnectionEnd)`. -/
def pickConnectionEnd : Identified Data → Option (Identified ConnectionEndValue)
  | ⟨c, .ConnectionEnd conn⟩ => some ⟨c, conn⟩
  | _ => none

/-- Projection for `identified!(ChannelEnd)`. -/
def pickChannelEnd : Identified Data → Option (Identified ChannelValue)
  | ⟨c, .ChannelEnd ch⟩ => some ⟨c, ch⟩
  | _ => none

/-- Projection for `identified!(PacketAcknowledgement)`. -/
def pickPacketAcknowledgement : Identified Data → Option (Identified (String × String))
  | ⟨c, .PacketAcknowledgement fetched_by ack⟩ => some ⟨c, (fetched_by, ack)⟩
  | _ => none

/-- Projection for `identified!(SelfClientState)`. -/
def pickSelfClientState : Identified Data → Option (Identified String)
  | ⟨c, .SelfClientState raw⟩ => some ⟨c, raw⟩
  | _ => none

/-- Projection for `identified!(SelfConsensusState)`. -/
def pickSelfConsensusState : Identified Data → Option (Identified String)
  | ⟨c, .SelfConsensusState raw⟩ => some ⟨c, raw⟩
  | _ => none

/-- `do_create`: dispatch a completed aggregation (`queue` empty) to the
receiver's `aggregate` function, extracting the declared data tuple from
the collected payloads (extraction modelled from the spec, see
`extractOne`); leftover items are a fatal bug (`none`).
`LightClientSpecific` aggregations are handled by light-client-specific
code outside `src/` and are modelled as a failure. -/
def do_create (receiver : Identified AggregateKind)
    (data : List (Identified Data)) : Option (List RelayerMsg) :=
  match receiver.data with
  | .ConnectionOpenTry event_height event => do
    let (tcs, r1) ← extractOne pickTrustedClientState data
    let (csp, r2) ← extractOne pickClientStateProof r1
    let (ccsp, r3) ← extractOne pickClientConsensusStateProof r2
    let (cp, r4) ← extractOne pickConnectionProof r3
    if r4.isEmpty then
      (aggregateConnectionOpenTry receiver.chain_id event_height event tcs csp ccsp cp).map ([·])
    else none
  | .ConnectionOpenAck event_height event => do
    let (tcs, r1) ← extractOne pickTrustedClientState data
    let (csp, r2) ← extractOne pickClientStateProof r1
    let (ccsp, r3) ← extractOne pickClientConsensusStateProof r2
    let (cp, r4) ← extractOne pickConnectionProof r3
    if r4.isEmpty then
      (aggregateConnectionOpenAck receiver.chain_id event_height event tcs csp ccsp cp).map ([·])
    else none
  | .ConnectionOpenConfirm _ event => do
    let (tcs, r1) ← extractOne pickTrustedClientState data
    let (cp, r2) ← extractOne pickConnectionProof r1
    if r2.isEmpty then
      (aggregateConnectionOpenConfirm receiver.chain_id event tcs cp).map ([·])
    else none
  | .ChannelOpenTry _ event => do
    let (tcs, r1) ← extractOne pickTrustedClientState data
    let (chp, r2) ← extractOne pickChannelEndProof r1
    let (conn, r3) ← extractOne pickConnectionEnd r2
    if r3.isEmpty then
      (aggregateChannelOpenTry receiver.chain_id event tcs chp conn).map ([·])
    else none
  | .ChannelOpenAck _ event => do
    let (tcs, r1) ← extractOne pickTrustedClientState data
    let (chp, r2) ← extractOne pickChannelEndProof r1
    if r2.isEmpty then
      (aggregateChannelOpenAck receiver.chain_id event tcs chp).map ([·])
    else none
  | .ChannelOpenConfirm _ event => do
    let (tcs, r1) ← extractOne pickTrustedClientState data
    let (chp, r2) ← extractOne pickChannelEndProof r1
    if r2.isEmpty then
      (aggregateChannelOpenConfirm receiver.chain_id event tcs chp).map ([·])
    else none
  | .UpdateClientFromClientId client_id counterparty_client_id => do
    let (tcs, r1) ← extractOne pickTrustedClientState data
    if r1.isEmpty then
      (aggregateUpdateClientFromClientId receiver.chain_id client_id
        counterparty_client_id tcs).map ([·])
    else none
  | .UpdateClient update_to client_id counterparty_client_id => do
    let (tcs, r1) ← extractOne pickTrustedClientState data
    if r1.isEmpty then
      (aggregateUpdateClient receiver.chain_id update_to client_id
        counterparty_client_id tcs).map ([·])
    else none
  | .UpdateClientWithCounterpartyChainId update_to client_id
      counterparty_client_id counterparty_chain_id => do
    let (tcs, r1) ← extractOne pickTrustedClientState data
    if r1.isEmpty then
      (aggregateUpdateClientWithCounterpartyChainId receiver.chain_id update_to client_id
        counterparty_client_id counterparty_chain_id tcs).map ([·])
    else none
  | .CreateClient config => do
    let (scs, r1) ← extractOne pickSelfClientState data
    let (sconss, r2) ← extractOne pickSelfConsensusState r1
    if r2.isEmpty then
      (aggregateCreateClient receiver.chain_id config scs sconss).map ([·])
    else none
  | .ConsensusStateProofAtLatestHeight client_id at_ => do
    let (tcs, r1) ← extractOne pickTrustedClientState data
    if r1.isEmpty then
      (aggregateConsensusStateProofAtLatestHeight receiver.chain_id client_id at_ tcs).map ([·])
    else none
  | .MsgAfterUpdate m => do
    let (tcs, r1) ← extractOne pickTrustedClientState data
    if r1.isEmpty then
      (aggregateMsgAfterUpdate receiver.chain_id tcs m).map ([·])
    else none
  | .LightClientSpecific _ => none
  | .ConnectionFetchFromChannelEnd at_ => do
    let (ch, r1) ← extractOne pickChannelEnd data
    if r1.isEmpty then
      (aggregateConnectionFetchFromChannelEnd receiver.chain_id at_ ch).map ([·])
    else none
  | .ChannelHandshakeUpdateClient update_to event_height channel_handshake_event => do
    let (conn, r1) ← extractOne pickConnectionEnd data
    if r1.isEmpty then
      (aggregateChannelHandshakeUpdateClient receiver.chain_id update_to event_height
        channel_handshake_event conn).map ([·])
    else none
  | .PacketUpdateClient update_to event_height block_hash packet_event => do
    let (conn, r1) ← extractOne pickConnectionEnd data
    if r1.isEmpty then
      (aggregatePacketUpdateClient receiver.chain_id update_to event_height block_hash
        packet_event conn).map ([·])
    else none
  | .RecvPacket _ event => do
    let (tcs, r1) ← extractOne pickTrustedClientState data
    let (comp, r2) ← extractOne pickCommitmentProof r1
    if r2.isEmpty then
      (aggregateRecvPacket receiver.chain_id event tcs comp).map ([·])
    else none
  | .AckPacket _ event _ _ => do
    let (tcs, r1) ← extractOne pickTrustedClientState data
    let (pa, r2) ← extractOne pickPacketAcknowledgement r1
    let (ap, r3) ← extractOne pickAcknowledgementProof r2
    if r3.isEmpty then
      (aggregateAckPacket receiver.chain_id event tcs pa ap).map ([·])
    else none
  | .WaitForTrustedHeight wait_for client_id counterparty_client_id => do
    let (tcs, r1) ← extractOne pickTrustedClientState data
    if r1.isEmpty then
      some [aggregateWaitForTrustedHeight receiver.chain_id wait_for client_id
        counterparty_client_id tcs]
    else none
  | .FetchCounterpartyStateproof _ fetch => do
    let (tcs, r1) ← extractOne pickTrustedClientState data
    if r1.isEmpty then
      (aggregateFetchCounterpartyStateProof receiver.chain_id fetch tcs).map ([·])
    else none

/-- `RelayerMsg::try_into::<AggregateData>()`: a successor is absorbed into
the aggregation's data iff it is an `Lc(Data(_))` message. -/
def asData : RelayerMsg → Option (Identified Data)
  | .Lc (.Data d) => some d
  | _ => none

/-- The `Aggregate` arm's partition of a handled sub-message's successors:
`Data` payloads (in order) move into `data`, everything else (in order)
goes back into `queue`. -/
def partitionAggregate : List RelayerMsg → List (Identified Data) × List RelayerMsg
  | [] => ([], [])
  | m :: ms =>
    let rest := partitionAggregate ms
    match asData m with
    | some d => (d :: rest.1, rest.2)
    | none => (rest.1, m :: rest.2)

/-- The reducer's interface to the outside world: the wall clock (`now`, unix
seconds) and the effectful per-light-client dispatcher `handle_msg_generic`
(hasura indexing plus event/data/fetch/msg/wait handling, which performs
adapter I/O). `none` models a panic inside the leaf handler. -/
structure Env where
  now : Nat
  handleLc : LcMsg → Option (List RelayerMsg)

/-- `Voyager::handle_msg`: reduce one message to its successors. `none`
models a panic (`Retry` is `todo!()` in the source). The `depth` argument of
the source only feeds tracing and is omitted. -/
def handleMsg (env : Env) : RelayerMsg → Option (List RelayerMsg)
  | .Lc m => env.handleLc m
  | .DeferUntil timestamp =>
    if env.now < timestamp then some [.DeferUntil timestamp] else some []
  | .Timeout timeout_timestamp msg =>
    if timeout_timestamp < env.now then some []
    else handleMsg env msg
  | .Sequence [] => some []
  | .Sequence (msg :: rest) =>
    (handleMsg env msg).map fun msgs => [flatten_seq (.Sequence (msgs ++ rest))]
  | .Retry _ _ => none
  | .Aggregate [] data receiver => do_create receiver data
  | .Aggregate (msg :: rest) data receiver =>
    (handleMsg env msg).map fun msgs =>
      let part := partitionAggregate msgs
      [.Aggregate (rest ++ part.2) (data ++ part.1) receiver]

/-- `ProcessFlow`: the queue handler's return contract. -/
inductive ProcessFlow
  | Success (new_msgs : List RelayerMsg)
  | Requeue
  | Fail (why : String)

/-- `InMemoryQueue::process`: the queue is its `VecDeque` content (head
first); the result is the queue after the call, `none` modelling the
`panic!` on `ProcessFlow::Fail`. -/
def InMemoryQueue.process (queue : List RelayerMsg)
    (f : RelayerMsg → ProcessFlow) : Option (List RelayerMsg) :=
  match queue with
  | [] => some []
  | msg :: rest =>
    match f msg with
    | .Success new_msgs => some (rest ++ new_msgs)
    | .Requeue => some (msg :: rest)
    | .Fail _ => none

end Voyager

namespace Voyager

/-- `ethers::contract::ContractError` as the EVM submission path
distinguishes it: a transaction revert (with decoded reason) versus any
other contract/provider error. -/
inductive ContractSendError
  | Revert (reason : String)
  | Other (desc : String)
deriving DecidableEq, Repr

/-- The outcome of `msg.send().await` followed by awaiting the pending
transaction: `sent r` is the `Ok` branch with `r` the awaited receipt
(`Except` for a provider error, `Option` for a missing receipt), `failed`
is the `Err` branch. -/
inductive SubmitResult
  | sent (awaited : Except String (Option String))
  | failed (e : ContractSendError)
deriving Repr

/-- What `DoMsg::msg for Evm` does with the submission result: return `Ok`
(message done, no successors), return a recoverable error (`?` on the
receipt path), or `panic!` (fatal). -/
inductive MsgOutcome
  | ok
  | error (e : String)
  | fatal
deriving DecidableEq, Repr

/-- The result handling of `DoMsg::msg for Evm` (`evm.rs:296-311`): a
successful send with a receipt is `Ok`; a missing receipt is the
recoverable `NoTxReceipt`; a provider error propagates via `?`; a
`ContractError::Revert` is logged and returned as `Ok`; every other send
failure is `panic!`. -/
def evm_msg_result : SubmitResult → MsgOutcome
  | .sent (.ok (some _)) => .ok
  | .sent (.ok none) => .error "NoTxReceipt"
  | .sent (.error e) => .error e
  | .failed (.Revert _) => .ok
  | .failed (.Other _) => .fatal

/-- The `register_client` handling in the `CreateClient` arm
(`evm.rs:244-259`): a send error is logged as "likely already registered"
and execution continues; a successful send whose receipt then fails is
`unwrap`ped (`fatal`). The argument is the send result, with the awaited
receipt result nested in the `Ok` branch. -/
def register_client_result : Except String (Except String Unit) → MsgOutcome
  | .error _ => .ok
  | .ok (.ok _) => .ok
  | .ok (.error _) => .fatal

/-- Substring containment on character lists (helper for
`looks_like_already_registered`; kept structural so it evaluates by
`decide`). -/
def listContainsSub (needle : List Char) : List Char → Bool
  | [] => needle.isEmpty
  | c :: rest => needle.isPrefixOf (c :: rest) || listContainsSub needle rest

/-- The classification the spec's words suggest for a revert reason:
whether it "looks like" a client-type-already-registered revert (contains
the phrase "already registered"). -/
def looks_like_already_registered (reason : String) : Bool :=
  listContainsSub "already registered".toList reason.toList

end Voyager

namespace Ucs01

/-- `TransferToken { denom, amount }` (the amount is carried opaquely, as
the module only threads it through). -/
structure TransferToken where
  denom : String
  amount : String
deriving DecidableEq, Repr

/-- `cosmwasm_std::Timestamp::plus_seconds` (timestamps are nanoseconds). -/
def plus_seconds (t : Nat) (d : Nat) : Nat := t + d * 1000000000

/-- `TransferInput` (`current_time` in nanoseconds, `timeout_delta` in
seconds). -/
structure TransferInput where
  current_time : Nat
  timeout_delta : Nat
  sender : String
  receiver : String
  tokens : List TransferToken
deriving DecidableEq, Repr

/-- `cosmwasm_std::IbcEndpoint`. -/
structure IbcEndpoint where
  port_id : String
  channel_id : String
deriving DecidableEq, Repr

/-- A cosmwasm event attribute. -/
structure EventAttribute where
  key : String
  value : String
deriving DecidableEq, Repr

/-- A cosmwasm event: a type tag plus attributes. -/
structure CwEvent where
  ty : String
  attributes : List EventAttribute
deriving DecidableEq, Repr

/-- The cosmwasm messages the transfer module emits: the outbound
`IbcMsg::SendPacket` (with its timeout, in nanoseconds) and the bank /
token-factory sub-messages (opaque). -/
inductive CwMsg
  | SendPacket (channel_id : String) (data : String) (timeout : Nat)
  | Other (raw : String)
deriving DecidableEq, Repr

/-- A cosmwasm `Response`: messages plus events (the attributes the claims
inspect; submessages of `Response` are unused by `send`). -/
structure CwResponse where
  messages : List CwMsg
  events : List CwEvent
deriving DecidableEq, Repr

/-- `protocol.rs` constants. -/
def MODULE_NAME : String := "transfer"

/-- `PACKET_EVENT`. -/
def PACKET_EVENT : String := "fungible_token_packet"

/-- `TRANSFER_EVENT`. -/
def TRANSFER_EVENT : String := "ibc_transfer"

/-- `TransferPacketCommon`/the packet value: sender, receiver, tokens and
the protocol extension (the memo string; `NoExtension` renders as ""). -/
structure TransferPacketData where
  sender : String
  receiver : String
  tokens : List TransferToken
  extension : String
deriving DecidableEq, Repr

/-- Modelled from the spec: `TransferToken::normalize_for_ibc_transfer`
lives in `ucs01-relay-api/src/types.rs`, which is not under `src/`. Per
§6.4: a denom is foreign iff it starts with this side's `port/channel/`
endpoint; normalization strips that prepended endpoint from a foreign
denom and prepends it to a native one. -/
def normalize_for_ibc_transfer (self_addr : String) (endpoint : IbcEndpoint)
    (t : TransferToken) : TransferToken :=
  let _ := self_addr
  let pre := (endpoint.port_id ++ "/" ++ endpoint.channel_id ++ "/").toList
  if pre.isPrefixOf t.denom.toList then
    { t with denom := String.mk (t.denom.toList.drop pre.length) }
  else
    { t with denom := String.mk (pre ++ t.denom.toList) }

/-- The trait pieces `TransferProtocol::send` relies on, one value per
protocol variant: the contract address and channel endpoint, the
variant-specific `send_tokens` (burn/escrow submessages), the packet
construction `Packet::try_from(TransferPacketCommon)` and the wire
encoding `Packet::try_into(Binary)`. -/
structure ProtocolCtx where
  self_addr : String
  channel_endpoint : IbcEndpoint
  send_tokens : String → String → List TransferToken → Except String (List CwMsg)
  mk_packet : TransferPacketData → Except String TransferPacketData
  encode_packet : TransferPacketData → Except String String

/-- `TransferProtocol::send` (`protocol.rs:97-138`): normalize the tokens,
build the packet, emit the burn/escrow messages, the outbound
`SendPacket` with timeout `current_time.plus_seconds(timeout_delta)`, the
`ibc_transfer` event (sender, receiver, memo, one `denom:<denom>`
attribute per normalized token) and the `message{module=transfer}`
event. -/
def TransferProtocol.send (ctx : ProtocolCtx) (input : TransferInput)
    (extension : String) : Except String CwResponse := do
  let tokens := input.tokens.map (normalize_for_ibc_transfer ctx.self_addr ctx.channel_endpoint)
  let packet ← ctx.mk_packet
    { sender := input.sender, receiver := input.receiver, tokens := tokens,
      extension := extension }
  let send_msgs ← ctx.send_tokens packet.sender packet.receiver packet.tokens
  let packet_bin ← ctx.encode_packet packet
  pure {
    messages := send_msgs ++ [.SendPacket ctx.channel_endpoint.channel_id packet_bin
      (plus_seconds input.current_time input.timeout_delta)]
    events := [
      { ty := TRANSFER_EVENT
        attributes := [⟨"sender", input.sender⟩, ⟨"receiver", input.receiver⟩,
            ⟨"memo", extension⟩]
          ++ tokens.map fun t => ⟨"denom:" ++ t.denom, t.amount⟩ },
      { ty := "message", attributes := [⟨"module", MODULE_NAME⟩] } ] }

/-- A cosmwasm submessage: the wrapped message and the reply id it is
registered under with `SubMsg::reply_on_error`. -/
structure SubMsgData where
  msg : CwMsg
  reply_on_error_id : Nat
deriving DecidableEq, Repr

/-- An `IbcReceiveResponse`: the acknowledgement bytes, the emitted events
and the registered submessages. -/
structure IbcReceiveResponseData where
  ack : String
  events : List CwEvent
  submessages : List SubMsgData
deriving DecidableEq, Repr

/-- The trait pieces the receive path relies on: packet decoding, the
phase-1 execute message construction, the encoded success ack
(`ack_success().try_into()`, fallible) and the encoded failure ack
(`ack_failure(err).try_into().expect("impossible")`, infallible), and the
protocol's `RECEIVE_REPLY_ID`. -/
structure ReceiveCtx where
  decode_packet : String → Except String TransferPacketData
  mk_receive_phase1_execute : String → Except String CwMsg
  ack_success_bin : Except String String
  ack_failure_bin : String → String
  receive_reply_id : Nat

/-- `TransferProtocol::receive_error` (`protocol.rs:266-279`): failure ack
plus a `fungible_token_packet` event with `success=false` and the error
string. -/
def receive_error (ack_failure_bin : String → String)
    (error : String) : IbcReceiveResponseData :=
  { ack := ack_failure_bin error
    events := [{ ty := PACKET_EVENT
                 attributes := [⟨"module", MODULE_NAME⟩, ⟨"success", "false"⟩,
                   ⟨"error", error⟩] }]
    submessages := [] }

/-- `TransferProtocol::receive_phase0` (`protocol.rs:204-243`): decode the
packet, register the phase-1 mint/unescrow submessage with
`reply_on_error`, and set the ack to the success ack; any failure in that
closure takes the `receive_error` branch. -/
def receive_phase0 (ctx : ReceiveCtx) (raw_packet : String) : IbcReceiveResponseData :=
  let handle : Except String IbcReceiveResponseData := do
    let packet ← ctx.decode_packet raw_packet
    let execute_msg ← ctx.mk_receive_phase1_execute raw_packet
    let ack_bin ← ctx.ack_success_bin
    pure {
      ack := ack_bin
      events := [{ ty := PACKET_EVENT
                   attributes := [⟨"module", MODULE_NAME⟩, ⟨"sender", packet.sender⟩,
                       ⟨"receiver", packet.receiver⟩, ⟨"memo", packet.extension⟩,
                       ⟨"success", "true"⟩]
                     ++ packet.tokens.map fun t => ⟨"denom:" ++ t.denom, t.amount⟩ }]
      submessages := [⟨execute_msg, ctx.receive_reply_id⟩] }
  match handle with
  | .ok response => response
  | .error err => receive_error ctx.ack_failure_bin err

/-- Modelled from the spec: the relay contract threads the
`RECEIVE_REPLY_ID` reply back into the protocol (`ucs01-relay/src/ibc.rs`,
not under `src/`), so that when the phase-1 sub-transaction reverts the
reply-on-error handler overwrites the acknowledgement with the failure
ack; when no submessage was registered (phase 0 already failed) or the
sub-transaction succeeds, the phase-0 response stands. `subtx` is the
sub-transaction outcome. -/
def receive_final (ctx : ReceiveCtx) (raw_packet : String)
    (subtx : Except String Unit) : IbcReceiveResponseData :=
  let phase0 := receive_phase0 ctx raw_packet
  if phase0.submessages.isEmpty then phase0
  else
    match subtx with
    | .ok _ => phase0
    | .error err => { phase0 with ack := ctx.ack_failure_bin err }

/-- `cosmwasm_std::Coin`. -/
structure Coin where
  denom : String
  amount : Nat
deriving DecidableEq, Repr

/-- `ucs01-relay`'s `ContractError` as `execute_transfer` can produce it
(`error.rs` is not under `src/`; variants and fields are taken from the
uses in `contract.rs` and the spec's §7). -/
inductive ContractError
  | Std (e : String)
  | NoFunds
  | UnknownProtocol (channel_id : String) (protocol_version : String)
  | Protocol (e : String)
deriving DecidableEq, Repr

/-- The stored per-channel info: the endpoint and the protocol version
string negotiated at the channel handshake. -/
structure ChannelInfo where
  endpoint : IbcEndpoint
  protocol_version : String
deriving DecidableEq, Repr

/-- The stored contract config (`Config { default_timeout }`). -/
structure ContractConfig where
  default_timeout : Nat
deriving DecidableEq, Repr

/-- Contract storage as `execute_transfer` reads it: `CHANNEL_INFO` keyed
by channel id and `CONFIG`. -/
structure ContractStorage where
  channel_info : String → Option ChannelInfo
  config : Option ContractConfig

/-- `cosmwasm_std::MessageInfo`. -/
structure MessageInfoData where
  sender : String
  funds : List Coin
deriving DecidableEq, Repr

/-- `TransferMsg { channel, receiver, memo }`. -/
structure TransferMsgData where
  channel : String
  receiver : String
  memo : String
deriving DecidableEq, Repr

/-- `env.block.time` (nanoseconds). -/
structure EnvData where
  block_time : Nat
deriving DecidableEq, Repr

/-- Insert a coin into a denom-sorted duplicate-free list, failing on a
duplicate denom (helper for `coinsTryFrom`). -/
def insertCoin (c : Coin) : List Coin → Except String (List Coin)
  | [] => .ok [c]
  | d :: rest =>
    if c.denom = d.denom then .error "Duplicate denoms"
    else if c.denom < d.denom then .ok (c :: d :: rest)
    else (insertCoin c rest).map (d :: ·)

/-- Modelled from `cosmwasm_std::Coins::try_from(Vec<Coin>)` followed by
`into_vec` (external library): zero-amount coins are dropped, a duplicate
denom is an error, and the result is sorted by denom. -/
def coinsTryFrom : List Coin → Except String (List Coin)
  | [] => .ok []
  | c :: rest => do
    let acc ← coinsTryFrom rest
    if c.amount = 0 then .ok acc else insertCoin c acc

/-- `Ics20Protocol::VERSION`. Modelled from the spec: the version string
constants are defined in `ucs01-relay/src/protocol.rs`, which is not under
`src/`; the claims only rely on the two constants being distinct. -/
def ics20_version : String := "ics20-1"

/-- `Ucs01Protocol::VERSION` (see `ics20_version` for provenance). -/
def ucs01_version : String := "ucs01-relay-1"

/-- `execute_transfer` (`contract.rs:63-117`): decode the funds, reject an
empty token list with `NoFunds`, load the channel info and config, then
dispatch on the channel's stored protocol version — ICS20 runs
`Ics20Protocol::send` with the message's memo, UCS01 runs
`Ucs01Protocol::send` with `NoExtension` (empty memo), any other version
is `UnknownProtocol`. The two `ProtocolCtx` arguments carry the
variant-specific trait pieces (defined in `ucs01-relay/src/protocol.rs`,
not under `src/`). -/
def execute_transfer (ics20_ctx ucs01_ctx : ChannelInfo → ProtocolCtx)
    (storage : ContractStorage) (env : EnvData) (info : MessageInfoData)
    (msg : TransferMsgData) : Except ContractError CwResponse := do
  let coins ← match coinsTryFrom info.funds with
    | .ok cs => .ok cs
    | .error _ => .error (ContractError.Std "Couldn't decode funds to Coins")
  let tokens : List TransferToken := coins.map fun c => ⟨c.denom, toString c.amount⟩
  if tokens.isEmpty then .error .NoFunds else do
  let channel_info ← match storage.channel_info msg.channel with
    | some ci => .ok ci
    | none => .error (ContractError.Std "ucs01_relay::state::ChannelInfo not found")
  let config ← match storage.config with
    | some c => .ok c
    | none => .error (ContractError.Std "ucs01_relay::state::Config not found")
  let input : TransferInput :=
    { current_time := env.block_time, timeout_delta := config.default_timeout,
      sender := info.sender, receiver := msg.receiver, tokens := tokens }
  if channel_info.protocol_version = ics20_version then
    match TransferProtocol.send (ics20_ctx channel_info) input msg.memo with
    | .ok r => .ok r
    | .error e => .error (.Protocol e)
  else if channel_info.protocol_version = ucs01_version then
    match TransferProtocol.send (ucs01_ctx channel_info) input "" with
    | .ok r => .ok r
    | .error e => .error (.Protocol e)
  else .error (.UnknownProtocol msg.channel channel_info.protocol_version)

end Ucs01

namespace Voyager

theorem flattenList_append (l₁ l₂ : List RelayerMsg) :
    flattenList (l₁ ++ l₂) = flattenList l₁ ++ flattenList l₂ := by
  induction l₁ with
  | nil => simp [flattenList]
  | cons m ms ih => simp [flattenList, ih]

mutual

theorem flattenList_flatten (m : RelayerMsg) :
    flattenList (flatten m) = flatten m := by
  cases m with
  | Sequence s => rw [flatten]; exact flattenList_idem s
  | Lc v => simp [flatten, flattenList]
  | DeferUntil t => simp [flatten, flattenList]
  | Timeout t msg => simp [flatten, flattenList]
  | Retry n msg => simp [flatten, flattenList]
  | Aggregate q d r => simp [flatten, flattenList]

theorem flattenList_idem (l : List RelayerMsg) :
    flattenList (flattenList l) = flattenList l := by
  cases l with
  | nil => simp [flattenList]
  | cons m ms =>
    rw [flattenList, flattenList_append, flattenList_flatten m, flattenList_idem ms]

end

mutual

theorem flatten_mem_nonSeq (m : RelayerMsg) :
    ∀ x ∈ flatten m, isSequence x = false := by
  cases m with
  | Sequence s => exact flattenList_mem_nonSeq s
  | Lc v => intro x hx; rcases List.mem_singleton.1 hx with rfl; rfl
  | DeferUntil t => intro x hx; rcases List.mem_singleton.1 hx with rfl; rfl
  | Timeout t msg => intro x hx; rcases List.mem_singleton.1 hx with rfl; rfl
  | Retry n msg => intro x hx; rcases List.mem_singleton.1 hx with rfl; rfl
  | Aggregate q d r => intro x hx; rcases List.mem_singleton.1 hx with rfl; rfl

theorem flattenList_mem_nonSeq (l : List RelayerMsg) :
    ∀ x ∈ flattenList l, isSequence x = false := by
  cases l with
  | nil => intro x hx; exact absurd hx (List.not_mem_nil x)
  | cons m ms =>
    intro x hx
    rcases List.mem_append.1 hx with h | h
    · exact flatten_mem_nonSeq m x h
    · exact flattenList_mem_nonSeq ms x h

end

theorem flatten_flatten_seq (m : RelayerMsg) :
    flatten (flatten_seq m) = flatten m := by
  unfold flatten_seq
  rcases hm : flatten m with _ | ⟨x, _ | ⟨y, t⟩⟩
  · simp [flatten, flattenList, ← hm, flattenList_flatten]
  · have hx : flattenList [x] = [x] := by rw [← hm, flattenList_flatten]
    rw [flattenList] at hx
    simp only [flattenList] at hx
    simpa using hx
  · rw [flatten, ← hm, flattenList_flatten]

theorem flatten_seq_congr {a b : RelayerMsg} (h : flatten a = flatten b) :
    flatten_seq a = flatten_seq b := by
  unfold flatten_seq
  rw [h]

end Voyager

namespace Voyager

/-- Claim C3: handling `Sequence[Sequence[a,b],c]` yields the same successor
stream as handling `Sequence[a,b,c]` (the `Sequence` handler handles the
head, prepends its successors, and re-emits after flattening); the flatten
operation `flatten_seq` is idempotent and associative over sequence
grouping; and a flattened sequence never contains a nested `Sequence`
(every element of `flatten m` — the body of any re-emitted `Sequence` — is
not itself a `Sequence`). -/
theorem c3_sequence_flattening (env : Env) (a b c m x y z : RelayerMsg) :
    handleMsg env (.Sequence [.Sequence [a, b], c]) = handleMsg env (.Sequence [a, b, c])
    ∧ flatten_seq (flatten_seq m) = flatten_seq m
    ∧ flatten_seq (.Sequence [.Sequence [x, y], z]) = flatten_seq (.Sequence [x, y, z])
    ∧ flatten_seq (.Sequence [x, .Sequence [y, z]]) = flatten_seq (.Sequence [x, y, z])
    ∧ ((flatten m).all fun u => !(isSequence u)) = true := by
  refine ⟨?_, flatten_seq_congr (flatten_flatten_seq m), ?_, ?_, ?_⟩
  · have e1 : handleMsg env (.Sequence [.Sequence [a, b], c]) =
        (handleMsg env (.Sequence [a, b])).map
          fun ms => [flatten_seq (.Sequence (ms ++ [c]))] := rfl
    have e2 : handleMsg env (.Sequence [a, b]) =
        (handleMsg env a).map fun ms => [flatten_seq (.Sequence (ms ++ [b]))] := rfl
    have e3 : handleMsg env (.Sequence [a, b, c]) =
        (handleMsg env a).map fun ms => [flatten_seq (.Sequence (ms ++ [b, c]))] := rfl
    rw [e1, e2, e3]
    cases hA : handleMsg env a with
    | none => rfl
    | some ms =>
      simp only [Option.map_some']
      have hfl : flatten (RelayerMsg.Sequence
            ([flatten_seq (.Sequence (ms ++ [b]))] ++ [c])) =
          flatten (RelayerMsg.Sequence (ms ++ [b, c])) := by
        show flattenList ([flatten_seq (.Sequence (ms ++ [b]))] ++ [c]) =
          flattenList (ms ++ [b, c])
        calc flattenList ([flatten_seq (.Sequence (ms ++ [b]))] ++ [c])
            = flattenList [flatten_seq (.Sequence (ms ++ [b]))] ++ flattenList [c] :=
              flattenList_append _ _
          _ = (flatten (flatten_seq (.Sequence (ms ++ [b]))) ++ []) ++ (flatten c ++ []) := rfl
          _ = flatten (RelayerMsg.Sequence (ms ++ [b])) ++ flatten c := by
              rw [flatten_flatten_seq]; simp
          _ = flattenList (ms ++ [b]) ++ flatten c := rfl
          _ = (flattenList ms ++ flattenList [b]) ++ flatten c := by rw [flattenList_append]
          _ = flattenList ms ++ (flatten b ++ (flatten c ++ [])) := by
              simp [flattenList, List.append_assoc]
          _ = flattenList ms ++ flattenList [b, c] := rfl
          _ = flattenList (ms ++ [b, c]) := (flattenList_append _ _).symm
      rw [flatten_seq_congr hfl]
  · exact flatten_seq_congr (by
      show flattenList [RelayerMsg.Sequence [x, y], z] = flattenList [x, y, z]
      simp [flattenList, flatten, List.append_assoc])
  · exact flatten_seq_congr (by
      show flattenList [x, RelayerMsg.Sequence [y, z]] = flattenList [x, y, z]
      simp [flattenList, flatten, List.append_assoc])
  · refine List.all_eq_true.2 ?_
    intro u hu
    have := flatten_mem_nonSeq m u hu
    simp [this]

end Voyager

namespace Voyager

/-- Claim C4: handling `WaitForTrustedHeight{client_id, height,
counterparty_client_id, counterparty_chain_id}` queries the local client of
the counterparty at the chain's latest (destination) height; if the
client's trusted height has reached the requested height (the code
compares revision heights) it returns exactly one successor — a
`Fetch(TrustedClientState{at: Specific(trusted height), client_id:
counterparty_client_id})` addressed to the counterparty chain; otherwise it
returns `Sequence[DeferUntil(now+1), the identical WaitForTrustedHeight]`. -/
theorem c4_wait_for_trusted_height (l : WaitChainCtx)
    (client_id : String) (height : Height)
    (counterparty_client_id counterparty_chain_id : String) :
    (height.revision_height ≤
        (l.query_client_state client_id l.latest_height_as_destination).height.revision_height →
      handle_wait l (.TrustedHeight client_id height counterparty_client_id counterparty_chain_id) =
        some [.Lc (.Fetch ⟨counterparty_chain_id, .TrustedClientState
          (.Specific (l.query_client_state client_id l.latest_height_as_destination).height)
          counterparty_client_id⟩)])
    ∧ (¬ height.revision_height ≤
        (l.query_client_state client_id l.latest_height_as_destination).height.revision_height →
      handle_wait l (.TrustedHeight client_id height counterparty_client_id counterparty_chain_id) =
        some [.Sequence [
          .DeferUntil (l.now + 1),
          .Lc (.Wait ⟨l.chain_id,
            .TrustedHeight client_id height counterparty_client_id counterparty_chain_id⟩)]]) := by
  constructor
  · intro h
    simp [handle_wait, h]
  · intro h
    simp [handle_wait, h]

/-- Witness for `c4_wait_for_trusted_height`: a concrete context exercising
the resolved branch (trusted height 7 ≥ requested 5). -/
theorem c4_wait_for_trusted_height_witness :
    (Height.mk 1 5).revision_height ≤
      ((WaitChainCtx.mk "union" ⟨1, 9⟩ ⟨1, 9⟩ 100
          (fun _ _ => ⟨"evm", ⟨1, 7⟩⟩) 42).query_client_state "08-wasm-0"
        (WaitChainCtx.mk "union" ⟨1, 9⟩ ⟨1, 9⟩ 100
          (fun _ _ => ⟨"evm", ⟨1, 7⟩⟩) 42).latest_height_as_destination).height.revision_height
    ∧ handle_wait
        (WaitChainCtx.mk "union" ⟨1, 9⟩ ⟨1, 9⟩ 100 (fun _ _ => ⟨"evm", ⟨1, 7⟩⟩) 42)
        (.TrustedHeight "08-wasm-0" ⟨1, 5⟩ "cometbls-0" "evm") =
      some [.Lc (.Fetch ⟨"evm", .TrustedClientState (.Specific ⟨1, 7⟩) "cometbls-0"⟩)] :=
  ⟨by decide,
    (c4_wait_for_trusted_height
      (WaitChainCtx.mk "union" ⟨1, 9⟩ ⟨1, 9⟩ 100 (fun _ _ => ⟨"evm", ⟨1, 7⟩⟩) 42)
      "08-wasm-0" ⟨1, 5⟩ "cometbls-0" "evm").1 (by decide)⟩

/-- Claim C5: one `InMemoryQueue::process(f)` call dequeues exactly the head
message (doing nothing on an empty queue); `Success(xs)` appends `xs` in
order to the tail with the head removed; `Requeue` re-inserts the dequeued
message at the head, leaving the queue in its pre-call state; `Fail` is
fatal (modelled `none`); in the non-`Fail` cases the remaining messages are
unchanged and keep their relative order (they appear verbatim as the
`rest` segment of the result). -/
theorem c5_in_memory_queue_process (msg : RelayerMsg)
    (rest new_msgs : List RelayerMsg) (f : RelayerMsg → ProcessFlow) (why : String) :
    (InMemoryQueue.process [] f = some [])
    ∧ (f msg = .Success new_msgs →
        InMemoryQueue.process (msg :: rest) f = some (rest ++ new_msgs))
    ∧ (f msg = .Requeue →
        InMemoryQueue.process (msg :: rest) f = some (msg :: rest))
    ∧ (f msg = .Fail why →
        InMemoryQueue.process (msg :: rest) f = none) := by
  refine ⟨rfl, ?_, ?_, ?_⟩
  · intro h; simp [InMemoryQueue.process, h]
  · intro h; simp [InMemoryQueue.process, h]
  · intro h; simp [InMemoryQueue.process, h]

/-- Witness for `c5_in_memory_queue_process`: a two-element queue whose head
handler succeeds with one successor. -/
theorem c5_in_memory_queue_process_witness :
    ((fun _ => ProcessFlow.Success [RelayerMsg.DeferUntil 3]) (RelayerMsg.DeferUntil 1)
        = ProcessFlow.Success [RelayerMsg.DeferUntil 3])
    ∧ InMemoryQueue.process [RelayerMsg.DeferUntil 1, RelayerMsg.DeferUntil 2]
        (fun _ => ProcessFlow.Success [RelayerMsg.DeferUntil 3]) =
      some [RelayerMsg.DeferUntil 2, RelayerMsg.DeferUntil 3] :=
  ⟨rfl,
    (c5_in_memory_queue_process (RelayerMsg.DeferUntil 1) [RelayerMsg.DeferUntil 2]
      [RelayerMsg.DeferUntil 3] (fun _ => ProcessFlow.Success [RelayerMsg.DeferUntil 3])
      "why").2.1 rfl⟩

end Voyager

namespace Voyager

/-- Claim C1: observing `ConnectionOpenInit` on chain A emits exactly one
workflow — a `Sequence` of a `WaitForBlock(height+1)` and a single
aggregation whose receiver culminates in `ConnectionOpenTry` — and the
`AggregateConnectionOpenTry` aggregation, fed the trusted client state and
the three proofs (all on chain A, proof heights having reached the event
height), produces exactly one `MsgConnectionOpenTry`, addressed to the
counterparty chain B (the chain tracked by the aggregated client state),
whose `counterparty` field is `{client_id: A's client id from the event,
connection_id: A's connection id from the event, prefix: "ibc"}` and whose
`consensus_height` is the height carried by the trusted client state
aggregated for the message. -/
theorem c1_connection_open_init_to_try (chain_id block_hash : String) (h : Height)
    (init : ConnectionOpenInitEvt)
    (tcs : Identified TrustedClientStateData)
    (client_state_proof consensus_state_proof : Identified (StateProofOf String))
    (connection_proof : Identified (StateProofOf ConnectionEndValue)) :
    handle_event chain_id (.Ibc ⟨block_hash, h, .ConnectionOpenInit init⟩) =
      some [.Sequence [
        .Lc (.Wait ⟨chain_id, .Block h.increment⟩),
        .Aggregate
          [mk_aggregate_update chain_id init.client_id init.counterparty_client_id h]
          []
          ⟨chain_id, .MsgAfterUpdate (.ConnectionOpenTry h init)⟩]]
    ∧ (tcs.chain_id = chain_id →
       client_state_proof.chain_id = chain_id →
       consensus_state_proof.chain_id = chain_id →
       connection_proof.chain_id = chain_id →
       h.revision_height ≤ consensus_state_proof.data.proof_height.revision_height →
       h.revision_height ≤ client_state_proof.data.proof_height.revision_height →
       aggregateConnectionOpenTry chain_id h init tcs
           client_state_proof consensus_state_proof connection_proof =
         some (.Lc (.Msg ⟨tcs.data.trusted_client_state.chain_id, .ConnectionOpenTry {
           client_id := init.counterparty_client_id
           client_state := client_state_proof.data.state
           counterparty := {
             client_id := init.client_id
             connection_id := init.connection_id
             prefix_ := { key_prefix_bytes := "ibc" } }
           delay_period := DELAY_PERIOD
           counterparty_versions := connection_proof.data.state.versions
           proof_height := connection_proof.data.proof_height
           proof_init := connection_proof.data.proof
           proof_client := client_state_proof.data.proof
           proof_consensus := consensus_state_proof.data.proof
           consensus_height := tcs.data.trusted_client_state.height }⟩))) := by
  constructor
  · rfl
  · intro h1 h2 h3 h4 h5 h6
    simp [aggregateConnectionOpenTry, h1, h2, h3, h4, h5, h6]

/-- Witness for `c1_connection_open_init_to_try`: the init event at height
`(1,100)` on chain "union" with a trusted client state of chain "evm" at
height `(1,105)` and proofs at `(1,101)`. -/
theorem c1_connection_open_init_to_try_witness :
    ((⟨"union", ⟨⟨1, 101⟩, "08-wasm-0", ⟨"evm", ⟨1, 105⟩⟩⟩⟩ :
        Identified TrustedClientStateData).chain_id = "union")
    ∧ aggregateConnectionOpenTry "union" ⟨1, 100⟩
        ⟨"connection-1", "08-wasm-0", "cometbls-0"⟩
        ⟨"union", ⟨⟨1, 101⟩, "08-wasm-0", ⟨"evm", ⟨1, 105⟩⟩⟩⟩
        ⟨"union", ⟨"cs-bytes", "cs-proof", ⟨1, 101⟩⟩⟩
        ⟨"union", ⟨"ccs-bytes", "ccs-proof", ⟨1, 101⟩⟩⟩
        ⟨"union", ⟨⟨"08-wasm-0", ["1"], ⟨"cometbls-0", "", ⟨"ibc"⟩⟩⟩, "conn-proof", ⟨1, 101⟩⟩⟩ =
      some (.Lc (.Msg ⟨"evm", .ConnectionOpenTry {
        client_id := "cometbls-0"
        client_state := "cs-bytes"
        counterparty := {
          client_id := "08-wasm-0"
          connection_id := "connection-1"
          prefix_ := { key_prefix_bytes := "ibc" } }
        delay_period := DELAY_PERIOD
        counterparty_versions := ["1"]
        proof_height := ⟨1, 101⟩
        proof_init := "conn-proof"
        proof_client := "cs-proof"
        proof_consensus := "ccs-proof"
        consensus_height := ⟨1, 105⟩ }⟩)) :=
  ⟨rfl,
    ((c1_connection_open_init_to_try "union" "0xabc" ⟨1, 100⟩
      ⟨"connection-1", "08-wasm-0", "cometbls-0"⟩
      ⟨"union", ⟨⟨1, 101⟩, "08-wasm-0", ⟨"evm", ⟨1, 105⟩⟩⟩⟩
      ⟨"union", ⟨"cs-bytes", "cs-proof", ⟨1, 101⟩⟩⟩
      ⟨"union", ⟨"ccs-bytes", "ccs-proof", ⟨1, 101⟩⟩⟩
      ⟨"union", ⟨⟨"08-wasm-0", ["1"], ⟨"cometbls-0", "", ⟨"ibc"⟩⟩⟩, "conn-proof", ⟨1, 101⟩⟩⟩).2
      rfl rfl rfl rfl (by decide) (by decide))⟩

end Voyager

namespace Voyager

/-- Claim C2: for a `SendPacket` observed at height `H`, (i) the emitted
workflow aggregates the connection end into `PacketUpdateClient` with
`update_to = H+1`; (ii) that aggregation chains into a
`WaitForTrustedHeight` receiver whose `wait_for` is `H+1`; (iii) which
emits the `Wait::TrustedHeight` targeting exactly `H+1` on the
counterparty; (iv) the wait resolves only once the client's trusted height
has reached `H+1`, and then fetches the trusted client state at that
specific height; (v) the `RecvPacket` aggregation fetches the commitment
proof at the trusted state's `fetched_at`; (vi) the final `MsgRecvPacket`
carries the commitment proof's `proof_height`, which — given that the
proof was produced at the `fetched_at` height the wait resolved at and that
revisions agree — is `≥ H+1`. -/
theorem c2_send_packet_height_monotonicity (chain_id block_hash : String)
    (H : Height) (p : SendPacketEvt)
    (conn : Identified ConnectionEndValue)
    (tcsW tcsR : Identified TrustedClientStateData)
    (l : WaitChainCtx)
    (cp : Identified (StateProofOf String)) :
    handle_event chain_id (.Ibc ⟨block_hash, H, .SendPacket p⟩) =
      some [.Sequence [
        .Lc (.Wait ⟨chain_id, .Block H.increment⟩),
        .Aggregate
          [.Lc (.Fetch ⟨chain_id, .ConnectionEnd H p.connection_id⟩)]
          []
          ⟨chain_id, .PacketUpdateClient H.increment H block_hash (.Send p)⟩]]
    ∧ (conn.chain_id = chain_id →
       aggregatePacketUpdateClient chain_id H.increment H block_hash (.Send p) conn =
         some (.Aggregate
           [.Aggregate
             [.Lc (.Fetch ⟨chain_id, .TrustedClientState .Latest conn.data.client_id⟩)]
             []
             ⟨chain_id, .WaitForTrustedHeight H.increment conn.data.client_id
               conn.data.counterparty.client_id⟩]
           []
           ⟨chain_id, .MsgAfterUpdate (.RecvPacket H p)⟩))
    ∧ aggregateWaitForTrustedHeight chain_id H.increment conn.data.client_id
        conn.data.counterparty.client_id tcsW =
      .Lc (.Wait ⟨tcsW.data.trusted_client_state.chain_id,
        .TrustedHeight conn.data.counterparty.client_id H.increment
          conn.data.client_id chain_id⟩)
    ∧ (H.increment.revision_height ≤
        (l.query_client_state conn.data.counterparty.client_id
          l.latest_height_as_destination).height.revision_height →
       handle_wait l (.TrustedHeight conn.data.counterparty.client_id H.increment
           conn.data.client_id chain_id) =
         some [.Lc (.Fetch ⟨chain_id, .TrustedClientState
           (.Specific (l.query_client_state conn.data.counterparty.client_id
             l.latest_height_as_destination).height) conn.data.client_id⟩)])
    ∧ (tcsR.chain_id = chain_id →
       aggregateMsgAfterUpdate chain_id tcsR (.RecvPacket H p) =
         some (.Aggregate
           [.Lc (.Fetch ⟨chain_id, .StateProof tcsR.data.fetched_at
             (.CommitmentPath p.packet_src_port p.packet_src_channel p.packet_sequence)⟩)]
           [⟨chain_id, .TrustedClientState tcsR.data⟩]
           ⟨chain_id, .RecvPacket H p⟩))
    ∧ (tcsR.chain_id = chain_id →
       cp.chain_id = chain_id →
       cp.data.proof_height = tcsR.data.fetched_at →
       H.increment.revision_height ≤ tcsR.data.fetched_at.revision_height →
       cp.data.proof_height.revision_number = H.revision_number →
       aggregateRecvPacket chain_id p tcsR cp =
         some (.Lc (.Msg ⟨tcsR.data.trusted_client_state.chain_id, .RecvPacket {
           proof_height := cp.data.proof_height
           packet := {
             sequence := p.packet_sequence
             source_port := p.packet_src_port
             source_channel := p.packet_src_channel
             destination_port := p.packet_dst_port
             destination_channel := p.packet_dst_channel
             data := p.packet_data_hex
             timeout_height := p.packet_timeout_height
             timeout_timestamp := p.packet_timeout_timestamp }
           proof_commitment := cp.data.proof }⟩))
       ∧ Height.le H.increment cp.data.proof_height) := by
  refine ⟨rfl, ?_, rfl, ?_, ?_, ?_⟩
  · intro h
    simp [aggregatePacketUpdateClient, h]
  · intro h
    simp [handle_wait, h]
  · intro h
    simp [aggregateMsgAfterUpdate, h]
  · intro h1 h2 h3 h4 h5
    constructor
    · simp [aggregateRecvPacket, h1, h2]
    · refine ⟨?_, ?_⟩
      · simpa [Height.increment] using h5.symm
      · rw [h3]; simpa [Height.increment] using h4

/-- Witness for `c2_send_packet_height_monotonicity`: a packet sent at
height `(1,200)`; the counterparty's trusted height reaches `(1,201)`, the
trusted state is fetched at `(1,201)` and the commitment proof is produced
at that height, so the final `proof_height (1,201) ≥ H+1`. -/
theorem c2_send_packet_height_monotonicity_witness :
    aggregateRecvPacket "union"
        ⟨7, "transfer", "channel-0", "transfer", "channel-9", "beef", ⟨1, 999⟩, 0, "connection-1"⟩
        ⟨"union", ⟨⟨1, 201⟩, "08-wasm-0", ⟨"evm", ⟨1, 300⟩⟩⟩⟩
        ⟨"union", ⟨"commitment", "cm-proof", ⟨1, 201⟩⟩⟩ =
      some (.Lc (.Msg ⟨"evm", .RecvPacket {
        proof_height := ⟨1, 201⟩
        packet := {
          sequence := 7
          source_port := "transfer"
          source_channel := "channel-0"
          destination_port := "transfer"
          destination_channel := "channel-9"
          data := "beef"
          timeout_height := ⟨1, 999⟩
          timeout_timestamp := 0 }
        proof_commitment := "cm-proof" }⟩))
    ∧ Height.le (Height.mk 1 200).increment ⟨1, 201⟩ :=
  (c2_send_packet_height_monotonicity "union" "0xabc" ⟨1, 200⟩
    ⟨7, "transfer", "channel-0", "transfer", "channel-9", "beef", ⟨1, 999⟩, 0, "connection-1"⟩
    ⟨"union", ⟨"08-wasm-0", ["1"], ⟨"cometbls-0", "", ⟨"ibc"⟩⟩⟩⟩
    ⟨"union", ⟨⟨1, 201⟩, "08-wasm-0", ⟨"evm", ⟨1, 300⟩⟩⟩⟩
    ⟨"union", ⟨⟨1, 201⟩, "08-wasm-0", ⟨"evm", ⟨1, 300⟩⟩⟩⟩
    (WaitChainCtx.mk "evm" ⟨1, 50⟩ ⟨1, 50⟩ 100 (fun _ _ => ⟨"union", ⟨1, 201⟩⟩) 42)
    ⟨"union", ⟨"commitment", "cm-proof", ⟨1, 201⟩⟩⟩).2.2.2.2.2
    rfl rfl rfl (by decide) (by decide)

end Voyager

namespace Voyager

/-- Counterexample to claim C6 as stated: a transaction revert whose reason
does not look like "already registered" at all is still returned as `ok`
(logged only), not treated as fatal. -/
theorem c6_counterexample :
    looks_like_already_registered "ERC20: transfer amount exceeds balance" = false
    ∧ evm_msg_result (.failed (.Revert "ERC20: transfer amount exceeds balance")) = .ok
    ∧ evm_msg_result (.failed (.Revert "ERC20: transfer amount exceeds balance")) ≠ .fatal := by
  refine ⟨by decide, rfl, by decide⟩

/-- Claim C6 (amended): the EVM adapter's `msg` treats every transaction
revert as success — the revert is only logged and `Ok(())` is returned, so
the queue message is marked done with no successors — regardless of
whether the revert reason looks like "already registered"; submission
failures other than reverts are fatal (`panic!`); a missing or failed
transaction receipt surfaces as a recoverable error; and in the
`CreateClient` arm a `register_client` send error is logged (as likely
"already registered") and execution continues. -/
theorem c6_amended_evm_msg_reverts_are_success (reason err rcp : String) :
    evm_msg_result (.failed (.Revert reason)) = .ok
    ∧ evm_msg_result (.failed (.Other err)) = .fatal
    ∧ evm_msg_result (.sent (.ok (some rcp))) = .ok
    ∧ evm_msg_result (.sent (.ok none)) = .error "NoTxReceipt"
    ∧ evm_msg_result (.sent (.error err)) = .error err
    ∧ register_client_result (.error err) = .ok := by
  exact ⟨rfl, rfl, rfl, rfl, rfl, rfl⟩

end Voyager

namespace Ucs01

/-- Claim C7: a successful `send(TransferInput, extension)` — on either
protocol variant, i.e. for any `ProtocolCtx` — produces a response whose
events are exactly an `ibc_transfer` event with the attributes `sender`,
`receiver`, `memo` plus one `denom:<denom> = <amount>` attribute per
normalized token, and a `message` event with `module=transfer`; and whose
last message is the outbound `SendPacket` with timeout
`current_time.plus_seconds(timeout_delta)`. -/
theorem c7_send_events_and_timeout (ctx : ProtocolCtx) (input : TransferInput)
    (extension : String) (pkt : TransferPacketData) (send_msgs : List CwMsg)
    (packet_bin : String) :
    ctx.mk_packet
      { sender := input.sender, receiver := input.receiver,
        tokens := input.tokens.map
          (normalize_for_ibc_transfer ctx.self_addr ctx.channel_endpoint),
        extension := extension } = .ok pkt →
    ctx.send_tokens pkt.sender pkt.receiver pkt.tokens = .ok send_msgs →
    ctx.encode_packet pkt = .ok packet_bin →
    TransferProtocol.send ctx input extension = .ok {
      messages := send_msgs ++ [.SendPacket ctx.channel_endpoint.channel_id packet_bin
        (plus_seconds input.current_time input.timeout_delta)]
      events := [
        { ty := TRANSFER_EVENT
          attributes := [⟨"sender", input.sender⟩, ⟨"receiver", input.receiver⟩,
              ⟨"memo", extension⟩]
            ++ (input.tokens.map
                (normalize_for_ibc_transfer ctx.self_addr ctx.channel_endpoint)).map
              fun t => ⟨"denom:" ++ t.denom, t.amount⟩ },
        { ty := "message", attributes := [⟨"module", MODULE_NAME⟩] } ] } := by
  intro h1 h2 h3
  simp [TransferProtocol.send, h1, h2, h3, Bind.bind, Except.bind, Pure.pure, Except.pure]

/-- Witness for `c7_send_events_and_timeout`: a single-token transfer of 10
`muno` over `transfer/channel-0` with trivial packet construction; the
native denom is normalized by prefixing the endpoint and the packet
timeout is `1000 + 3600s`. -/
theorem c7_send_events_and_timeout_witness :
    TransferProtocol.send
        ⟨"contract", ⟨"transfer", "channel-0"⟩,
          fun _ _ _ => .ok [.Other "escrow"],
          fun p => .ok p,
          fun _ => .ok "packet-bytes"⟩
        ⟨1000, 3600, "alice", "bob", [⟨"muno", "10"⟩]⟩ "" =
      .ok {
        messages := [.Other "escrow",
          .SendPacket "channel-0" "packet-bytes" (plus_seconds 1000 3600)]
        events := [
          { ty := TRANSFER_EVENT
            attributes := [⟨"sender", "alice"⟩, ⟨"receiver", "bob"⟩, ⟨"memo", ""⟩,
              ⟨"denom:transfer/channel-0/muno", "10"⟩] },
          { ty := "message", attributes := [⟨"module", MODULE_NAME⟩] } ] } := by
  have := c7_send_events_and_timeout
    ⟨"contract", ⟨"transfer", "channel-0"⟩,
      fun _ _ _ => .ok [.Other "escrow"],
      fun p => .ok p,
      fun _ => .ok "packet-bytes"⟩
    ⟨1000, 3600, "alice", "bob", [⟨"muno", "10"⟩]⟩ ""
    ⟨"alice", "bob", [⟨"transfer/channel-0/muno", "10"⟩], ""⟩
    [.Other "escrow"] "packet-bytes" rfl rfl rfl
  simpa using this

/-- Claim C8: the receive path sets the acknowledgement to the success ack
by default — `receive_phase0` registers the phase-1 mint/unescrow
submessage with `reply_on_error` and sets the success ack together with a
`success=true` packet event — and the ack is overwritten with the failure
ack only when the sub-transaction reverts (reply-on-error) or the packet
fails to decode; in the failure case the response carries the failure ack
together with a `fungible_token_packet` event with `success=false` and the
error string. -/
theorem c8_receive_default_success_ack (ctx : ReceiveCtx) (raw_packet : String)
    (packet : TransferPacketData) (execute_msg : CwMsg) (ack_bin : String)
    (subtx_err decode_err : String) :
    (ctx.decode_packet raw_packet = .ok packet →
     ctx.mk_receive_phase1_execute raw_packet = .ok execute_msg →
     ctx.ack_success_bin = .ok ack_bin →
       receive_phase0 ctx raw_packet = {
         ack := ack_bin
         events := [{ ty := PACKET_EVENT
                      attributes := [⟨"module", MODULE_NAME⟩, ⟨"sender", packet.sender⟩,
                          ⟨"receiver", packet.receiver⟩, ⟨"memo", packet.extension⟩,
                          ⟨"success", "true"⟩]
                        ++ packet.tokens.map fun t => ⟨"denom:" ++ t.denom, t.amount⟩ }]
         submessages := [⟨execute_msg, ctx.receive_reply_id⟩] }
       ∧ (receive_final ctx raw_packet (.ok ())).ack = ack_bin
       ∧ (receive_final ctx raw_packet (.error subtx_err)).ack =
           ctx.ack_failure_bin subtx_err)
    ∧ (ctx.decode_packet raw_packet = .error decode_err →
       receive_phase0 ctx raw_packet = receive_error ctx.ack_failure_bin decode_err)
    ∧ (receive_error ctx.ack_failure_bin decode_err).ack = ctx.ack_failure_bin decode_err
    ∧ (receive_error ctx.ack_failure_bin decode_err).events =
        [{ ty := PACKET_EVENT
           attributes := [⟨"module", MODULE_NAME⟩, ⟨"success", "false"⟩,
             ⟨"error", decode_err⟩] }] := by
  refine ⟨?_, ?_, rfl, rfl⟩
  · intro h1 h2 h3
    have hp0 : receive_phase0 ctx raw_packet = {
        ack := ack_bin
        events := [{ ty := PACKET_EVENT
                     attributes := [⟨"module", MODULE_NAME⟩, ⟨"sender", packet.sender⟩,
                         ⟨"receiver", packet.receiver⟩, ⟨"memo", packet.extension⟩,
                         ⟨"success", "true"⟩]
                       ++ packet.tokens.map fun t => ⟨"denom:" ++ t.denom, t.amount⟩ }]
        submessages := [⟨execute_msg, ctx.receive_reply_id⟩] } := by
      simp [receive_phase0, h1, h2, h3, Bind.bind, Except.bind, Pure.pure, Except.pure]
    refine ⟨hp0, ?_, ?_⟩
    · simp [receive_final, hp0]
    · simp [receive_final, hp0]
  · intro h
    simp [receive_phase0, h, Bind.bind, Except.bind, receive_error]

/-- Witness for `c8_receive_default_success_ack`: a concrete context in
which decoding succeeds; the phase-0 ack is the success byte and the
error-reply overwrites it with the failure encoding. -/
theorem c8_receive_default_success_ack_witness :
    receive_phase0
        ⟨fun _ => .ok ⟨"alice", "bob", [⟨"muno", "10"⟩], ""⟩,
          fun _ => .ok (.Other "phase1"),
          .ok "ack-1", fun e => "ack-0:" ++ e, 1⟩ "raw" = {
        ack := "ack-1"
        events := [{ ty := PACKET_EVENT
                     attributes := [⟨"module", MODULE_NAME⟩, ⟨"sender", "alice"⟩,
                       ⟨"receiver", "bob"⟩, ⟨"memo", ""⟩, ⟨"success", "true"⟩,
                       ⟨"denom:muno", "10"⟩] }]
        submessages := [⟨.Other "phase1", 1⟩] }
    ∧ (receive_final
        ⟨fun _ => .ok ⟨"alice", "bob", [⟨"muno", "10"⟩], ""⟩,
          fun _ => .ok (.Other "phase1"),
          .ok "ack-1", fun e => "ack-0:" ++ e, 1⟩ "raw" (.error "revert")).ack =
      "ack-0:" ++ "revert" := by
  have := (c8_receive_default_success_ack
    ⟨fun _ => .ok ⟨"alice", "bob", [⟨"muno", "10"⟩], ""⟩,
      fun _ => .ok (.Other "phase1"),
      .ok "ack-1", fun e => "ack-0:" ++ e, 1⟩ "raw"
    ⟨"alice", "bob", [⟨"muno", "10"⟩], ""⟩ (.Other "phase1") "ack-1"
    "revert" "unused").1 rfl rfl rfl
  exact ⟨by simpa using this.1, this.2.2⟩

end Ucs01

namespace Ucs01

/-- Claim C9: `execute_transfer` dispatches on the channel's stored protocol
version string — the ICS20 version runs the `Ics20Protocol` variant (with
the message's memo), the UCS01 version runs the `Ucs01Protocol` variant
(with the empty `NoExtension` memo), and any other version returns
`UnknownProtocol` carrying the channel id from the message and the
unrecognized version string. -/
theorem c9_execute_transfer_protocol_dispatch
    (ics20_ctx ucs01_ctx : ChannelInfo → ProtocolCtx)
    (storage : ContractStorage) (env : EnvData) (info : MessageInfoData)
    (msg : TransferMsgData) (ci : ChannelInfo) (cfg : ContractConfig)
    (c0 : Coin) (coins : List Coin) :
    coinsTryFrom info.funds = .ok (c0 :: coins) →
    storage.channel_info msg.channel = some ci →
    storage.config = some cfg →
    ((ci.protocol_version = ics20_version →
      ∀ r, TransferProtocol.send (ics20_ctx ci)
          ⟨env.block_time, cfg.default_timeout, info.sender, msg.receiver,
            (c0 :: coins).map fun c => ⟨c.denom, toString c.amount⟩⟩ msg.memo = .ok r →
        execute_transfer ics20_ctx ucs01_ctx storage env info msg = .ok r)
    ∧ (ci.protocol_version = ucs01_version →
      ∀ r, TransferProtocol.send (ucs01_ctx ci)
          ⟨env.block_time, cfg.default_timeout, info.sender, msg.receiver,
            (c0 :: coins).map fun c => ⟨c.denom, toString c.amount⟩⟩ "" = .ok r →
        execute_transfer ics20_ctx ucs01_ctx storage env info msg = .ok r)
    ∧ (ci.protocol_version ≠ ics20_version → ci.protocol_version ≠ ucs01_version →
       execute_transfer ics20_ctx ucs01_ctx storage env info msg =
         .error (.UnknownProtocol msg.channel ci.protocol_version))) := by
  intro h1 h2 h3
  refine ⟨?_, ?_, ?_⟩
  · intro hv r hr
    simp only [List.map_cons] at hr
    simp [execute_transfer, h1, h2, h3, hv, hr, Bind.bind, Except.bind]
  · intro hv r hr
    simp only [List.map_cons] at hr
    have hne : ucs01_version ≠ ics20_version := by decide
    simp [execute_transfer, h1, h2, h3, hv, hne, hr, Bind.bind, Except.bind]
  · intro hv1 hv2
    simp [execute_transfer, h1, h2, h3, hv1, hv2, Bind.bind, Except.bind]

/-- Witness for `c9_execute_transfer_protocol_dispatch`: the spec's S6
scenario — a channel stored with version "bogus" yields
`UnknownProtocol{channel_id, protocol_version: "bogus"}`. -/
theorem c9_execute_transfer_protocol_dispatch_witness :
    coinsTryFrom [⟨"muno", 10⟩] = .ok [⟨"muno", 10⟩]
    ∧ execute_transfer
        (fun _ => ⟨"contract", ⟨"transfer", "channel-0"⟩, fun _ _ _ => .ok [],
          fun p => .ok p, fun _ => .ok ""⟩)
        (fun _ => ⟨"contract", ⟨"transfer", "channel-0"⟩, fun _ _ _ => .ok [],
          fun p => .ok p, fun _ => .ok ""⟩)
        ⟨fun _ => some ⟨⟨"transfer", "channel-0"⟩, "bogus"⟩, some ⟨3600⟩⟩
        ⟨0⟩ ⟨"alice", [⟨"muno", 10⟩]⟩ ⟨"channel-0", "bob", ""⟩ =
      .error (.UnknownProtocol "channel-0" "bogus") :=
  ⟨rfl,
    ((c9_execute_transfer_protocol_dispatch
      (fun _ => ⟨"contract", ⟨"transfer", "channel-0"⟩, fun _ _ _ => .ok [],
        fun p => .ok p, fun _ => .ok ""⟩)
      (fun _ => ⟨"contract", ⟨"transfer", "channel-0"⟩, fun _ _ _ => .ok [],
        fun p => .ok p, fun _ => .ok ""⟩)
      ⟨fun _ => some ⟨⟨"transfer", "channel-0"⟩, "bogus"⟩, some ⟨3600⟩⟩
      ⟨0⟩ ⟨"alice", [⟨"muno", 10⟩]⟩ ⟨"channel-0", "bob", ""⟩
      ⟨⟨"transfer", "channel-0"⟩, "bogus"⟩ ⟨3600⟩ ⟨"muno", 10⟩ []
      rfl rfl rfl).2.2 (by decide) (by decide))⟩

/-- Claim C10: calling `execute_transfer` with an empty funds list returns
`NoFunds` — the check runs before the channel is looked up, so the theorem
holds for every storage, in particular one where the channel does not
exist; as the call returns an error, no state change happens and no packet
is sent. -/
theorem c10_execute_transfer_empty_funds
    (ics20_ctx ucs01_ctx : ChannelInfo → ProtocolCtx)
    (storage : ContractStorage) (env : EnvData) (info : MessageInfoData)
    (msg : TransferMsgData) :
    info.funds = [] →
    execute_transfer ics20_ctx ucs01_ctx storage env info msg = .error .NoFunds := by
  intro h
  simp [execute_transfer, h, coinsTryFrom, Bind.bind, Except.bind]

/-- Witness for `c10_execute_transfer_empty_funds`: an empty-funds transfer
on a storage whose channel map is empty (the channel does not exist) still
reports `NoFunds` rather than a channel error. -/
theorem c10_execute_transfer_empty_funds_witness :
    (⟨"alice", []⟩ : MessageInfoData).funds = []
    ∧ execute_transfer
        (fun _ => ⟨"contract", ⟨"transfer", "channel-0"⟩, fun _ _ _ => .ok [],
          fun p => .ok p, fun _ => .ok ""⟩)
        (fun _ => ⟨"contract", ⟨"transfer", "channel-0"⟩, fun _ _ _ => .ok [],
          fun p => .ok p, fun _ => .ok ""⟩)
        ⟨fun _ => none, none⟩ ⟨0⟩ ⟨"alice", []⟩ ⟨"channel-missing", "bob", ""⟩ =
      .error .NoFunds :=
  ⟨rfl,
    c10_execute_transfer_empty_funds
      (fun _ => ⟨"contract", ⟨"transfer", "channel-0"⟩, fun _ _ _ => .ok [],
        fun p => .ok p, fun _ => .ok ""⟩)
      (fun _ => ⟨"contract", ⟨"transfer", "channel-0"⟩, fun _ _ _ => .ok [],
        fun p => .ok p, fun _ => .ok ""⟩)
      ⟨fun _ => none, none⟩ ⟨0⟩ ⟨"alice", []⟩ ⟨"channel-missing", "bob", ""⟩ rfl⟩

end Ucs01
